import Mathlib

/-!
Shallow embedding of `src/zev/command_validator.py` (variants A and B of the
repository) and proofs about it.  Commands are modelled as `List Char`;
positions are `Nat` (all Python indices involved are non-negative); the
optional `command` argument of `validate` is `Option (List Char)` with
`none` playing the role of Python's `None`.

Whitespace is modelled by the ASCII whitespace set (space, tab, LF, CR,
vertical tab, form feed), the set recognised by Python's `str.isspace`,
`str.strip` and the regex class `\s` on ASCII input.
-/

set_option maxRecDepth 8192

namespace Zev

/-- ASCII whitespace, as recognised by Python `str.isspace` / regex `\s`. -/
def pyIsSpace (c : Char) : Bool :=
  c = ' ' ∨ c = '\t' ∨ c = '\n' ∨ c = '\r' ∨ c = '\x0b' ∨ c = '\x0c'

/-- Python `str.lstrip()` (whitespace variant). -/
def lstrip (s : List Char) : List Char := s.dropWhile pyIsSpace

/-- Python `str.rstrip()` (whitespace variant). -/
def rstrip (s : List Char) : List Char := (s.reverse.dropWhile pyIsSpace).reverse

/-- Python `str.strip()` (whitespace variant). -/
def pyStrip (s : List Char) : List Char := lstrip (rstrip s)

/-- Python `str.isspace()`: non-empty and all whitespace. -/
def pyStrIsSpace (s : List Char) : Bool := !s.isEmpty && s.all pyIsSpace

/-- Python `str.index(ch)` returns the first index of `ch`; it raises
`ValueError` when `ch` is absent, which this pure model maps to `none`
(the raising behaviour itself is modelled by `validateE` below). -/
def pyIndex (ch : Char) : List Char → Option Nat
  | [] => none
  | c :: rest => if c = ch then some 0 else (pyIndex ch rest).map (· + 1)

/-- The `ValidationErrorCode` enumeration of `command_validator.py`. -/
inductive ValidationErrorCode where
  | EMPTY_COMMAND
  | UNCLOSED_SINGLE_QUOTE
  | UNCLOSED_DOUBLE_QUOTE
  | UNCLOSED_BACKTICK
  | TRAILING_PIPE
  | TRAILING_AND
  | TRAILING_OR
  | TRAILING_REDIRECT
  | TRAILING_SEMICOLON
  | TRAILING_BACKSLASH
  | LEADING_PIPE
  | LEADING_AND
  | LEADING_OR
  | LEADING_SEMICOLON
  | UNCLOSED_PARENTHESIS
  | UNCLOSED_BRACE
  | UNCLOSED_BRACKET
  | UNMATCHED_PARENTHESIS
  | UNMATCHED_BRACE
  | UNMATCHED_BRACKET
  | EMPTY_PIPE_SEGMENT
  | EMPTY_AND_SEGMENT
  | EMPTY_OR_SEGMENT
  | CONSECUTIVE_SEMICOLONS
  | INVALID_VARIABLE_ASSIGNMENT
  | REDIRECT_WITHOUT_TARGET
  | UNCLOSED_SUBSHELL
  | UNCLOSED_COMMAND_SUBSTITUTION
  | UNMATCHED_IF_THEN_FI
  | UNMATCHED_FOR_DO_DONE
  | UNMATCHED_WHILE_DO_DONE
  | UNMATCHED_CASE_ESAC
  | PARSE_ERROR
deriving DecidableEq, Repr

/-- The `ValidationResult` dataclass of `command_validator.py`. -/
structure ValidationResult where
  is_valid : Bool
  error_message : Option String := none
  error_code : Option ValidationErrorCode := none
  error_position : Option Nat := none
  suggestion : Option String := none
deriving DecidableEq, Repr

/-- The all-defaults valid result `ValidationResult(is_valid=True)`. -/
def okResult : ValidationResult := { is_valid := true }

/-- `CommandValidator._get_context_snippet` (default `context_size = 20`).
Note `position - 10` on `Nat` is Python's `max(0, position - 10)`. -/
def getContextSnippet (command : List Char) (position : Nat) : String :=
  let start := position - 10
  let stop := min command.length (position + 10)
  let snippet := String.mk ((command.drop start).take (stop - start))
  let s1 := if start > 0 then "..." ++ snippet else snippet
  let s2 := if stop < command.length then s1 ++ "..." else s1
  "'" ++ s2 ++ "'"

/-- The quote/escape scanner state of `_check_quotes_detailed`. -/
structure QuoteState where
  sq : Option Nat := none
  dq : Option Nat := none
  bt : Option Nat := none
  escaped : Bool := false
deriving DecidableEq, Repr

/-- The character loop of `_check_quotes_detailed`: `i` is the index of the
first character of the remaining input. -/
def scanQuotes : List Char → Nat → QuoteState → QuoteState
  | [], _, st => st
  | c :: rest, i, st =>
    if st.escaped then
      scanQuotes rest (i + 1) { st with escaped := false }
    else if c = '\\' then
      if st.dq.isSome ∨ (st.sq.isNone ∧ st.bt.isNone) then
        scanQuotes rest (i + 1) { st with escaped := true }
      else
        scanQuotes rest (i + 1) st
    else if c = '\'' ∧ st.dq.isNone ∧ st.bt.isNone then
      scanQuotes rest (i + 1)
        { st with sq := match st.sq with | none => some i | some _ => none }
    else if c = '"' ∧ st.sq.isNone ∧ st.bt.isNone then
      scanQuotes rest (i + 1)
        { st with dq := match st.dq with | none => some i | some _ => none }
    else if c = '`' ∧ st.sq.isNone then
      scanQuotes rest (i + 1)
        { st with bt := match st.bt with | none => some i | some _ => none }
    else
      scanQuotes rest (i + 1) st

/-- State machine of Python's `shlex` tokenizer (posix mode, whitespace
split), which `_check_quotes_detailed` invokes through `shlex.split` as a
secondary cross-check.  `shlex` is external library code; only its
error behaviour is relevant here: it raises `ValueError` exactly when the
scan ends inside a quote ("No closing quotation") or right after an escape
character ("No escaped character").  `inEscape none` returns to an
unquoted word, `inEscape (some q)` returns to the quote `q`. -/
inductive ShlexState where
  | space
  | word
  | inQuote (q : Char)
  | inEscape (ret : Option Char)
deriving DecidableEq, Repr

/-- `shlex.whitespace` is the string `" \t\r\n"`. -/
def shlexIsSpace (c : Char) : Bool :=
  c = ' ' ∨ c = '\t' ∨ c = '\r' ∨ c = '\n'

/-- One step of the `shlex.read_token` loop (posix, whitespace-split mode,
no comment characters): only the quoting/escaping state is tracked since
the produced tokens are discarded by the caller. -/
def shlexStep (st : ShlexState) (c : Char) : ShlexState :=
  match st with
  | .space =>
    if shlexIsSpace c then .space
    else if c = '\\' then .inEscape none
    else if c = '\'' ∨ c = '"' then .inQuote c
    else .word
  | .inQuote q =>
    if c = q then .word
    else if c = '\\' ∧ q = '"' then .inEscape (some '"')
    else .inQuote q
  | .inEscape ret =>
    match ret with
    | none => .word
    | some q => .inQuote q
  | .word =>
    if shlexIsSpace c then .space
    else if c = '\'' ∨ c = '"' then .inQuote c
    else if c = '\\' then .inEscape none
    else .word

/-- Final state of the `shlex` scan over the whole command. -/
def shlexFinal (command : List Char) : ShlexState :=
  command.foldl shlexStep .space

/-- Whether `shlex.split(command)` raises `ValueError`, and with which
message. -/
def shlexError (command : List Char) : Option String :=
  match shlexFinal command with
  | .inQuote _ => some "No closing quotation"
  | .inEscape _ => some "No escaped character"
  | _ => none

/-- The result `_check_quotes_detailed` returns for an unclosed single
quote opened at `p`. -/
def unclosedSingleQuoteResult (command : List Char) (p : Nat) : ValidationResult :=
  { is_valid := false
    error_message := some ("Unclosed single quote starting at position " ++
      toString p ++ ": " ++ getContextSnippet command p)
    error_code := some .UNCLOSED_SINGLE_QUOTE
    error_position := some p
    suggestion := some "Add a closing single quote (') to match the opening quote" }

/-- The result `_check_quotes_detailed` returns for an unclosed double
quote opened at `p`. -/
def unclosedDoubleQuoteResult (command : List Char) (p : Nat) : ValidationResult :=
  { is_valid := false
    error_message := some ("Unclosed double quote starting at position " ++
      toString p ++ ": " ++ getContextSnippet command p)
    error_code := some .UNCLOSED_DOUBLE_QUOTE
    error_position := some p
    suggestion := some "Add a closing double quote (\") to match the opening quote" }

/-- The result `_check_quotes_detailed` returns for an unclosed backtick
opened at `p`. -/
def unclosedBacktickResult (command : List Char) (p : Nat) : ValidationResult :=
  { is_valid := false
    error_message := some ("Unclosed backtick starting at position " ++
      toString p ++ ": " ++ getContextSnippet command p)
    error_code := some .UNCLOSED_BACKTICK
    error_position := some p
    suggestion := some "Add a closing backtick (`) or use $(...) for command substitution instead" }

/-- `CommandValidator._check_quotes_detailed`. -/
def checkQuotesDetailed (command : List Char) : ValidationResult :=
  let st := scanQuotes command 0 {}
  match st.sq with
  | some p => unclosedSingleQuoteResult command p
  | none =>
  match st.dq with
  | some p => unclosedDoubleQuoteResult command p
  | none =>
  match st.bt with
  | some p => unclosedBacktickResult command p
  | none =>
  match shlexError command with
  | some msg =>
    { is_valid := false
      error_message := some ("Shell parsing error: " ++ msg)
      error_code := some .PARSE_ERROR
      suggestion := some "Check for unclosed quotes or escape sequences" }
  | none => okResult

/-- Is the character `<` or `>`. -/
def isRedirChar (c : Char) : Bool := c = '<' ∨ c = '>'

/-- Match of the pre-compiled regex `[<>]+\s*$` against the already
right-stripped string: since no trailing whitespace remains, `re.search`
matches exactly when the string ends in a non-empty run of `<`/`>`
characters, the leftmost match starting at the beginning of that maximal
trailing run; `group().strip()` is the run itself.  Returns
`(match.start(), run)`. -/
def trailingRedirectMatch (stripped : List Char) : Option (Nat × List Char) :=
  let run := (stripped.reverse.takeWhile isRedirChar).reverse
  if run.isEmpty then none else some (stripped.length - run.length, run)

/-- `CommandValidator._check_trailing_operators`. -/
def checkTrailingOperators (command : List Char) : ValidationResult :=
  let stripped := rstrip command
  if stripped.isEmpty then okResult
  else if ['|'].isSuffixOf stripped ∧ ¬ (['|', '|'].isSuffixOf stripped) then
    { is_valid := false
      error_message := some "Command ends with incomplete pipe operator '|'"
      error_code := some .TRAILING_PIPE
      error_position := some (stripped.length - 1)
      suggestion := some "Add a command after the pipe, e.g., 'cmd1 | cmd2'" }
  else if ['&', '&'].isSuffixOf stripped then
    { is_valid := false
      error_message := some "Command ends with incomplete AND operator '&&'"
      error_code := some .TRAILING_AND
      error_position := some (stripped.length - 2)
      suggestion := some "Add a command after &&, e.g., 'cmd1 && cmd2'" }
  else if ['|', '|'].isSuffixOf stripped then
    { is_valid := false
      error_message := some "Command ends with incomplete OR operator '||'"
      error_code := some .TRAILING_OR
      error_position := some (stripped.length - 2)
      suggestion := some "Add a command after ||, e.g., 'cmd1 || cmd2'" }
  else if ['&'].isSuffixOf stripped && !(['&', '&'].isSuffixOf stripped) &&
      (match stripped.reverse with
       | _ :: c2 :: _ => isRedirChar c2
       | _ => false) then
    -- `len(stripped) >= 2 and stripped[-2] in "<>"`; a plain background `&`
    -- falls through to the checks below.
    { is_valid := false
      error_message := some "Redirection operator missing target file"
      error_code := some .REDIRECT_WITHOUT_TARGET
      error_position := some (stripped.length - 1)
      suggestion := some "Specify a file after the redirection, e.g., 'cmd &> file'" }
  else
    match trailingRedirectMatch stripped with
    | some (start, run) =>
      let op := String.mk run
      { is_valid := false
        error_message := some ("Redirection operator '" ++ op ++ "' missing target file")
        error_code := some .REDIRECT_WITHOUT_TARGET
        error_position := some start
        suggestion := some ("Specify a file after '" ++ op ++ "', e.g., 'cmd " ++ op ++ " filename'") }
    | none =>
      if stripped = [';'] then
        { is_valid := false
          error_message := some "Command contains only a semicolon"
          error_code := some .TRAILING_SEMICOLON
          error_position := some 0
          suggestion := some "Provide a command before the semicolon" }
      else if ['\\'].isSuffixOf stripped then
        { is_valid := false
          error_message := some "Command ends with line continuation backslash but no following line"
          error_code := some .TRAILING_BACKSLASH
          error_position := some (stripped.length - 1)
          suggestion := some "Remove the trailing backslash or add the continued command" }
      else okResult

/-- `CommandValidator._check_leading_operators`.  The source computes
`command.index(...)` on the original string for the reported position; that
call is modelled by `pyIndex` (see `validateE` for its raising behaviour). -/
def checkLeadingOperators (command : List Char) : ValidationResult :=
  let stripped := lstrip command
  if stripped.isEmpty then okResult
  else if ['|'].isPrefixOf stripped ∧ ¬ (['|', '|'].isPrefixOf stripped) then
    { is_valid := false
      error_message := some "Command cannot start with pipe operator '|'"
      error_code := some .LEADING_PIPE
      error_position := pyIndex '|' command
      suggestion := some "Pipes connect commands; add a command before '|', e.g., 'cmd1 | cmd2'" }
  else if ['&', '&'].isPrefixOf stripped then
    { is_valid := false
      error_message := some "Command cannot start with AND operator '&&'"
      error_code := some .LEADING_AND
      error_position := pyIndex '&' command
      suggestion := some "'&&' chains commands; add a command before it, e.g., 'cmd1 && cmd2'" }
  else if ['|', '|'].isPrefixOf stripped then
    { is_valid := false
      error_message := some "Command cannot start with OR operator '||'"
      error_code := some .LEADING_OR
      error_position := pyIndex '|' command
      suggestion := some "'||' provides fallback; add a command before it, e.g., 'cmd1 || cmd2'" }
  else if [';'].isPrefixOf stripped then
    { is_valid := false
      error_message := some "Command cannot start with semicolon ';'"
      error_code := some .LEADING_SEMICOLON
      error_position := pyIndex ';' command
      suggestion := some "Remove the leading semicolon or add a command before it" }
  else okResult

/-- The word-separator set of `_extract_unquoted_words`: whitespace or one
of `;|&<>(){}`. -/
def isWordSep (c : Char) : Bool :=
  pyIsSpace c ∨ c = ';' ∨ c = '|' ∨ c = '&' ∨ c = '<' ∨ c = '>' ∨
    c = '(' ∨ c = ')' ∨ c = '\x7b' ∨ c = '\x7d'

/-- The character loop of `_extract_unquoted_words`, carrying the
in-single-quote / in-double-quote / escaped flags and the current word. -/
def extractWordsGo : List Char → Bool → Bool → Bool → List Char → List String
  | [], _, _, _, cur => if cur.isEmpty then [] else [String.mk cur]
  | c :: rest, sq, dq, esc, cur =>
    if esc then
      extractWordsGo rest sq dq false (if ¬ sq ∧ ¬ dq then cur ++ [c] else cur)
    else if c = '\\' ∧ ¬ sq then
      extractWordsGo rest sq dq true cur
    else if c = '\'' ∧ ¬ dq then
      extractWordsGo rest (!sq) dq false cur
    else if c = '"' ∧ ¬ sq then
      extractWordsGo rest sq (!dq) false cur
    else if sq ∨ dq then
      extractWordsGo rest sq dq false cur
    else if isWordSep c then
      (if cur.isEmpty then [] else [String.mk cur]) ++ extractWordsGo rest sq dq false []
    else
      extractWordsGo rest sq dq false (cur ++ [c])

/-- `CommandValidator._extract_unquoted_words`. -/
def extractUnquotedWords (command : List Char) : List String :=
  extractWordsGo command false false false []

/-- The scanner state of `_check_balanced_delimiters_detailed`.  The Python
lists grow by `append` (top of stack at the end); here the head of each
list is the top of the stack, so Python's `stack[-1]` is the head and
`stack[0]` (the oldest entry) is the last element. -/
structure DelimState where
  paren : List Nat := []
  brace : List Nat := []
  bracket : List Nat := []
  subshell : List Nat := []
  inSQ : Bool := false
  inDQ : Bool := false
  escaped : Bool := false
deriving DecidableEq, Repr

/-- The result for an unmatched closing `)` at position `i`. -/
def unmatchedParenthesisResult (command : List Char) (i : Nat) : ValidationResult :=
  { is_valid := false
    error_message := some ("Unmatched closing parenthesis ')' at position " ++
      toString i ++ ": " ++ getContextSnippet command i)
    error_code := some .UNMATCHED_PARENTHESIS
    error_position := some i
    suggestion := some "Remove the extra ')' or add a matching '(' earlier in the command" }

/-- The result for an unmatched closing `}` at position `i`. -/
def unmatchedBraceResult (command : List Char) (i : Nat) : ValidationResult :=
  { is_valid := false
    error_message := some ("Unmatched closing brace '\x7d' at position " ++
      toString i ++ ": " ++ getContextSnippet command i)
    error_code := some .UNMATCHED_BRACE
    error_position := some i
    suggestion := some "Remove the extra '\x7d' or add a matching '\x7b' earlier in the command" }

/-- The result for an unmatched closing `]` at position `i`. -/
def unmatchedBracketResult (command : List Char) (i : Nat) : ValidationResult :=
  { is_valid := false
    error_message := some ("Unmatched closing bracket ']' at position " ++
      toString i ++ ": " ++ getContextSnippet command i)
    error_code := some .UNMATCHED_BRACKET
    error_position := some i
    suggestion := some "Remove the extra ']' or add a matching '[' earlier in the command" }

/-- The leading quote/escape handling of the loop body of
`_check_balanced_delimiters_detailed` (the `continue` cases before any
delimiter is examined): `some st'` means the character was consumed by
quote/escape bookkeeping, `none` means fall through to the delimiter
dispatch. -/
def delimQuoteStep (c : Char) (st : DelimState) : Option DelimState :=
  if st.escaped then some { st with escaped := false }
  else if c == '\\' && !st.inSQ then some { st with escaped := true }
  else if c == '\'' && !st.inDQ then some { st with inSQ := !st.inSQ }
  else if c == '"' && !st.inSQ then some { st with inDQ := !st.inDQ }
  else if st.inSQ || st.inDQ then some st
  else none

/-- The unquoted-`)` handling of `_check_balanced_delimiters_detailed`:
`if subshell_stack and (not paren_stack or subshell_stack[-1] > paren_stack[-1])`
pops the command-substitution stack, `elif paren_stack` pops the plain
stack, `elif has_case` silently accepts, else the unmatched-parenthesis
failure.  The top of each stack (Python `stack[-1]`) is its head, read
under the non-emptiness guard with `headD`. -/
def closeParen (command : List Char) (hasCase : Bool) (i : Nat) (st : DelimState) :
    Except ValidationResult DelimState :=
  if !st.subshell.isEmpty &&
      (st.paren.isEmpty || decide (st.subshell.headD 0 > st.paren.headD 0)) then
    .ok { st with subshell := st.subshell.tail }
  else if !st.paren.isEmpty then .ok { st with paren := st.paren.tail }
  else if hasCase then .ok st
  else .error (unmatchedParenthesisResult command i)

/-- The unquoted-`}` handling: pop or fail. -/
def closeBrace (command : List Char) (i : Nat) (st : DelimState) :
    Except ValidationResult DelimState :=
  if !st.brace.isEmpty then .ok { st with brace := st.brace.tail }
  else .error (unmatchedBraceResult command i)

/-- The unquoted-`]` handling: pop or fail. -/
def closeBracket (command : List Char) (i : Nat) (st : DelimState) :
    Except ValidationResult DelimState :=
  if !st.bracket.isEmpty then .ok { st with bracket := st.bracket.tail }
  else .error (unmatchedBracketResult command i)

/-- The delimiter dispatch of the loop body (reached only outside quotes):
`lookahead` is the character `command[i + 1]` when it exists.  The `Bool`
is `true` exactly when the two-character token `$(` was consumed
(`i += 2`). -/
def delimCharStep (command : List Char) (hasCase : Bool) (c : Char)
    (lookahead : Option Char) (i : Nat) (st : DelimState) :
    Except ValidationResult (DelimState × Bool) :=
  if c == '$' && lookahead == some '(' then
    -- `char == "$" and i + 1 < len(command) and command[i + 1] == "("`
    .ok ({ st with subshell := i :: st.subshell }, true)
  else if c == '(' then .ok ({ st with paren := i :: st.paren }, false)
  else if c == ')' then (closeParen command hasCase i st).map (·, false)
  else if c == '\x7b' then .ok ({ st with brace := i :: st.brace }, false)
  else if c == '\x7d' then (closeBrace command i st).map (·, false)
  else if c == '[' then .ok ({ st with bracket := i :: st.bracket }, false)
  else if c == ']' then (closeBracket command i st).map (·, false)
  else .ok (st, false)

/-- One iteration of the `while` loop of
`_check_balanced_delimiters_detailed`, acting on the character `c` whose
index is `i`: quote/escape bookkeeping first, then the delimiter
dispatch. -/
def delimStep (command : List Char) (hasCase : Bool) (c : Char) (lookahead : Option Char)
    (i : Nat) (st : DelimState) : Except ValidationResult (DelimState × Bool) :=
  match delimQuoteStep c st with
  | some st' => .ok (st', false)
  | none => delimCharStep command hasCase c lookahead i st

/-- The `while` loop of `_check_balanced_delimiters_detailed`.  `command`
is the full input (used for context snippets), `l` the remaining suffix,
`i` the index of its first character.  The loop advances by one or (for
`$(`) two characters per step, so `fuel` bounds the number of steps: any
fuel of at least `l.length` reaches the end of the input, and the function
is only invoked with fuel `command.length + 1`.  A mid-scan unmatched
closing delimiter aborts with `.error`; reaching the end of the input
returns the final state. -/
def delimScan (command : List Char) (hasCase : Bool) :
    Nat → List Char → Nat → DelimState → Except ValidationResult DelimState
  | 0, _, _, st => .ok st
  | _ + 1, [], _, st => .ok st
  | fuel + 1, c :: rest, i, st =>
    match delimStep command hasCase c rest.head? i st with
    | .error r => .error r
    | .ok (st', false) => delimScan command hasCase fuel rest (i + 1) st'
    | .ok (st', true) => delimScan command hasCase fuel rest.tail (i + 2) st'

/-- The full delimiter scan as invoked by the check (fuel
`command.length + 1` always suffices, since every step consumes at least
one character). -/
def runDelimScan (command : List Char) (hasCase : Bool) :
    Except ValidationResult DelimState :=
  delimScan command hasCase (command.length + 1) command 0 {}

/-- The result for an unclosed `$(` opened at `pos`. -/
def unclosedSubstitutionResult (command : List Char) (pos : Nat) : ValidationResult :=
  { is_valid := false
    error_message := some ("Unclosed command substitution '$(' starting at position " ++
      toString pos ++ ": " ++ getContextSnippet command pos)
    error_code := some .UNCLOSED_COMMAND_SUBSTITUTION
    error_position := some pos
    suggestion := some "Add a closing ')' to complete the $(...) command substitution" }

/-- The result for an unclosed `(` opened at `pos`. -/
def unclosedParenthesisResult (command : List Char) (pos : Nat) : ValidationResult :=
  { is_valid := false
    error_message := some ("Unclosed parenthesis '(' starting at position " ++
      toString pos ++ ": " ++ getContextSnippet command pos)
    error_code := some .UNCLOSED_PARENTHESIS
    error_position := some pos
    suggestion := some "Add a closing ')' to match the opening '('" }

/-- The result for an unclosed `{` opened at `pos`. -/
def unclosedBraceResult (command : List Char) (pos : Nat) : ValidationResult :=
  { is_valid := false
    error_message := some ("Unclosed brace '\x7b' starting at position " ++
      toString pos ++ ": " ++ getContextSnippet command pos)
    error_code := some .UNCLOSED_BRACE
    error_position := some pos
    suggestion := some "Add a closing '\x7d' to match the opening '\x7b'" }

/-- The result for an unclosed `[` opened at `pos`. -/
def unclosedBracketResult (command : List Char) (pos : Nat) : ValidationResult :=
  { is_valid := false
    error_message := some ("Unclosed bracket '[' starting at position " ++
      toString pos ++ ": " ++ getContextSnippet command pos)
    error_code := some .UNCLOSED_BRACKET
    error_position := some pos
    suggestion := some "Add a closing ']' to match the opening '['" }

/-- The `case`/`in` condition of `_check_balanced_delimiters_detailed`:
`"case" in words and "in" in words` on the unquoted words — membership
only, irrespective of the order or positions of the two words. -/
def delimHasCase (command : List Char) : Bool :=
  let words := extractUnquotedWords command
  words.contains "case" && words.contains "in"

/-- The post-scan reporting of `_check_balanced_delimiters_detailed`:
report the oldest entry of the first non-empty stack, subshell first
(Python `stack[0]`, here the last element since the head is the top). -/
def delimFinishResult (command : List Char) (st : DelimState) : ValidationResult :=
  match st.subshell.getLast? with
  | some pos => unclosedSubstitutionResult command pos
  | none =>
  match st.paren.getLast? with
  | some pos => unclosedParenthesisResult command pos
  | none =>
  match st.brace.getLast? with
  | some pos => unclosedBraceResult command pos
  | none =>
  match st.bracket.getLast? with
  | some pos => unclosedBracketResult command pos
  | none => okResult

/-- `CommandValidator._check_balanced_delimiters_detailed`: run the scan,
then report any unclosed opener. -/
def checkBalancedDelimitersDetailed (command : List Char) : ValidationResult :=
  match runDelimScan command (delimHasCase command) with
  | .error r => r
  | .ok st => delimFinishResult command st

/-- The `while` loop of `_split_by_operator` (variant A).  `l` is the
remaining suffix of the command, `i` the index of its first character,
`cur` the segment being accumulated.  On an operator match the loop
advances by `op.length` characters (for the operators used, 1 or 2), so
the recursion is driven by `fuel`; any fuel of at least `l.length`
reaches the end (each step consumes at least one character since the
operators are non-empty), and the entry point passes `l.length + 1`.
Variant A compares the slice `command[i:i + op_len]` with the operator,
i.e. `(c :: rest).take op.length == op`. -/
def splitGo (op : List Char) (excludeDouble : Bool) :
    Nat → List Char → Nat → List Char → Bool → Bool → Int → Bool → List (List Char)
  | 0, _, _, cur, _, _, _, _ => [cur]
  | _ + 1, [], _, cur, _, _, _, _ => [cur]
  | fuel + 1, c :: rest, i, cur, sq, dq, pd, esc =>
    if esc then
      splitGo op excludeDouble fuel rest (i + 1) (cur ++ [c]) sq dq pd false
    else if c = '\\' ∧ ¬ sq then
      splitGo op excludeDouble fuel rest (i + 1) (cur ++ [c]) sq dq pd true
    else if c = '\'' ∧ ¬ dq then
      splitGo op excludeDouble fuel rest (i + 1) (cur ++ [c]) (!sq) dq pd false
    else if c = '"' ∧ ¬ sq then
      splitGo op excludeDouble fuel rest (i + 1) (cur ++ [c]) sq (!dq) pd false
    else if ¬ sq ∧ ¬ dq then
      let pd' : Int := if c = '(' then pd + 1 else if c = ')' then pd - 1 else pd
      if pd' = 0 ∧ (c :: rest).take op.length = op then
        if excludeDouble ∧ op.length = 1 ∧ rest.take 1 = op then
          -- doubled single-character operator: skip this occurrence
          splitGo op excludeDouble fuel rest (i + 1) (cur ++ [c]) sq dq pd' false
        else
          -- `(c :: rest).drop op.length = rest.drop (op.length - 1)`
          cur :: splitGo op excludeDouble fuel (rest.drop (op.length - 1))
            (i + op.length) [] sq dq pd' false
      else
        splitGo op excludeDouble fuel rest (i + 1) (cur ++ [c]) sq dq pd' false
    else
      splitGo op excludeDouble fuel rest (i + 1) (cur ++ [c]) sq dq pd false

/-- `CommandValidator._split_by_operator` (variant A). -/
def splitByOperator (command : List Char) (op : List Char)
    (excludeDouble : Bool := false) : List (List Char) :=
  splitGo op excludeDouble (command.length + 1) command 0 [] false false 0 false

/-- The segment loop of `_check_pipe_chain_integrity`: the first interior
empty segment (index neither 0 nor last) fails; `i` is the current index
and `n` the total number of segments. -/
def pipeSegLoop (n : Nat) : List (List Char) → Nat → ValidationResult
  | [], _ => okResult
  | seg :: rest, i =>
    if (pyStrip seg).isEmpty then
      if i = 0 ∨ i = n - 1 then pipeSegLoop n rest (i + 1)
      else
        { is_valid := false
          error_message := some ("Empty command in pipe chain at segment " ++ toString (i + 1))
          error_code := some .EMPTY_PIPE_SEGMENT
          suggestion := some "Each segment in a pipe chain must contain a command, e.g., 'cmd1 | cmd2 | cmd3'" }
    else pipeSegLoop n rest (i + 1)

/-- `CommandValidator._check_pipe_chain_integrity`. -/
def checkPipeChainIntegrity (command : List Char) : ValidationResult :=
  let segments := splitByOperator command ['|'] true
  pipeSegLoop segments.length segments 0

/-- The segment loops of `_check_logical_operator_chains`: an interior
empty segment (`0 < i < n - 1`) fails with the given result. -/
def logicalSegLoop (n : Nat) (failure : ValidationResult) :
    List (List Char) → Nat → ValidationResult
  | [], _ => okResult
  | seg :: rest, i =>
    if (pyStrip seg).isEmpty ∧ 0 < i ∧ i < n - 1 then failure
    else logicalSegLoop n failure rest (i + 1)

/-- `CommandValidator._check_logical_operator_chains`. -/
def checkLogicalOperatorChains (command : List Char) : ValidationResult :=
  let andSegments := splitByOperator command ['&', '&']
  let andResult := logicalSegLoop andSegments.length
    { is_valid := false
      error_message := some "Empty command between '&&' operators"
      error_code := some .EMPTY_AND_SEGMENT
      suggestion := some "Add a command between the '&&' operators, e.g., 'cmd1 && cmd2 && cmd3'" }
    andSegments 0
  if ¬ andResult.is_valid then andResult
  else
    let orSegments := splitByOperator command ['|', '|']
    logicalSegLoop orSegments.length
      { is_valid := false
        error_message := some "Empty command between '||' operators"
        error_code := some .EMPTY_OR_SEGMENT
        suggestion := some "Add a command between the '||' operators, e.g., 'cmd1 || cmd2 || cmd3'" }
      orSegments 0

/-- Tail of the regex `<\s+<(?!<)` (resp. `>\s+>(?!>)`) after the first
redirection character and the first (mandatory) whitespace character have
been consumed: zero or more further whitespace characters, then `b` not
followed by another `b`. -/
def redirGapTail (b : Char) : List Char → Bool
  | [] => false
  | c :: rest =>
    if pyIsSpace c then redirGapTail b rest
    else c = b ∧ rest.head? ≠ some b

/-- Does the regex `b\s+b(?!b)` match at the start of `l`? -/
def redirGapAt (b : Char) (l : List Char) : Bool :=
  match l with
  | c1 :: c2 :: rest => c1 = b ∧ pyIsSpace c2 ∧ redirGapTail b rest
  | _ => false

/-- Does the regex `;\s*;` match at the start of `l`? -/
def consecSemisAt (l : List Char) : Bool :=
  match l with
  | ';' :: rest => semiTail rest
  | _ => false
where
  /-- zero or more whitespace characters, then `;`. -/
  semiTail : List Char → Bool
    | [] => false
    | c :: rest => if pyIsSpace c then semiTail rest else c = ';'

/-- Does the regex `;;;+` match at the start of `l`? -/
def tripleSemisAt (l : List Char) : Bool :=
  match l with
  | ';' :: ';' :: ';' :: _ => true
  | _ => false

/-- `re.search` for the patterns above: index of the leftmost suffix
where the pattern matches (`match.start()`), `none` when there is no
match.  None of the patterns used can match the empty suffix. -/
def findMatchIdx (pat : List Char → Bool) : List Char → Option Nat
  | [] => none
  | c :: rest =>
    if pat (c :: rest) then some 0 else (findMatchIdx pat rest).map (· + 1)

/-- The result for a space-separated `< <` whose match starts at `pos`. -/
def inputRedirectGapResult (pos : Option Nat) : ValidationResult :=
  { is_valid := false
    error_message := some "Invalid redirection '< <' - did you mean '<<' (here-doc) or '<<<' (here-string)?"
    error_code := some .REDIRECT_WITHOUT_TARGET
    error_position := pos
    suggestion := some "Use '<<' for here-documents or '<<<' for here-strings" }

/-- The result for a space-separated `> >` whose match starts at `pos`. -/
def outputRedirectGapResult (pos : Option Nat) : ValidationResult :=
  { is_valid := false
    error_message := some "Invalid redirection '> >' - did you mean '>>' (append)?"
    error_code := some .REDIRECT_WITHOUT_TARGET
    error_position := pos
    suggestion := some "Use '>>' without space for append redirection" }

/-- `CommandValidator._check_redirections_detailed` (variant A). -/
def checkRedirectionsDetailed (command : List Char) : ValidationResult :=
  match findMatchIdx (redirGapAt '<') command with
  | some pos => inputRedirectGapResult (some pos)
  | none =>
  match findMatchIdx (redirGapAt '>') command with
  | some pos => outputRedirectGapResult (some pos)
  | none => okResult

/-- The result for consecutive semicolons (`;\s*;`) at `pos` outside a
`case` construct. -/
def consecutiveSemicolonsResult (pos : Nat) : ValidationResult :=
  { is_valid := false
    error_message := some ("Multiple consecutive semicolons at position " ++ toString pos)
    error_code := some .CONSECUTIVE_SEMICOLONS
    error_position := some pos
    suggestion := some "Remove extra semicolons; use single ';' to separate commands" }

/-- The result for three or more consecutive semicolons (`;;;+`) at `pos`
inside a `case` construct. -/
def tripleSemicolonsResult (pos : Nat) : ValidationResult :=
  { is_valid := false
    error_message := some ("Too many consecutive semicolons at position " ++ toString pos)
    error_code := some .CONSECUTIVE_SEMICOLONS
    error_position := some pos
    suggestion := some "Use ';;' to end case patterns, not more semicolons" }

/-- The semicolon part of `_check_command_structure_detailed`: both
regexes are applied to the raw command string (quoted regions included);
only the `case`-word detection is quote-aware. -/
def semicolonStructureResult (command : List Char) : ValidationResult :=
  if ¬ (extractUnquotedWords command).contains "case" then
    match findMatchIdx consecSemisAt command with
    | some pos => consecutiveSemicolonsResult pos
    | none => okResult
  else
    match findMatchIdx tripleSemisAt command with
    | some pos => tripleSemicolonsResult pos
    | none => okResult

/-- `CommandValidator._check_command_structure_detailed`. -/
def checkCommandStructureDetailed (command : List Char) : ValidationResult :=
  let semiResult := semicolonStructureResult command
  if ¬ semiResult.is_valid then semiResult
  else if (lstrip command).head? = some '=' then
    -- `re.match(r"^\s*=", command)`
    { is_valid := false
      error_message := some "Invalid variable assignment - missing variable name before '='"
      error_code := some .INVALID_VARIABLE_ASSIGNMENT
      error_position := pyIndex '=' command
      suggestion := some "Variable assignment requires a name, e.g., 'VAR=value'" }
  else okResult

/-- The control-flow keyword counters of `_check_control_flow_keywords`.
They are Python ints; `if_count` and `case_count` can be decremented past
zero (triggering the fail-fast branch), so the model uses `Int`. -/
structure CFCounters where
  ifC : Int := 0
  forC : Int := 0
  whileC : Int := 0
  untilC : Int := 0
  caseC : Int := 0
  selectC : Int := 0
deriving DecidableEq, Repr

/-- The failure returned for an unmatched `fi`. -/
def unmatchedFiResult : ValidationResult :=
  { is_valid := false
    error_message := some "Unmatched 'fi' - missing corresponding 'if'"
    error_code := some .UNMATCHED_IF_THEN_FI
    suggestion := some "Add an 'if' statement before 'fi', or remove the extra 'fi'" }

/-- The failure returned for an unmatched `done`. -/
def unmatchedDoneResult : ValidationResult :=
  { is_valid := false
    error_message := some "Unmatched 'done' - missing corresponding 'for', 'while', 'until', or 'select'"
    error_code := some .UNMATCHED_FOR_DO_DONE
    suggestion := some "Add a loop statement before 'done', or remove the extra 'done'" }

/-- The failure returned for an unmatched `esac`. -/
def unmatchedEsacResult : ValidationResult :=
  { is_valid := false
    error_message := some "Unmatched 'esac' - missing corresponding 'case'"
    error_code := some .UNMATCHED_CASE_ESAC
    suggestion := some "Add a 'case' statement before 'esac', or remove the extra 'esac'" }

/-- The `fi` handling of `_check_control_flow_keywords`: the source
decrements and then tests `if_count < 0`, here written as testing the
decremented value. -/
def fiStep (cnt : CFCounters) : Except ValidationResult CFCounters :=
  if cnt.ifC - 1 < 0 then .error unmatchedFiResult
  else .ok { cnt with ifC := cnt.ifC - 1 }

/-- The `done` handling of `_check_control_flow_keywords`: decrement the
first counter among `for`, `while`, `until`, `select` (in that fixed
order) that is currently positive; if none is, fail fast with the
unmatched-`done` result. -/
def doneStep (cnt : CFCounters) : Except ValidationResult CFCounters :=
  if cnt.forC > 0 then .ok { cnt with forC := cnt.forC - 1 }
  else if cnt.whileC > 0 then .ok { cnt with whileC := cnt.whileC - 1 }
  else if cnt.untilC > 0 then .ok { cnt with untilC := cnt.untilC - 1 }
  else if cnt.selectC > 0 then .ok { cnt with selectC := cnt.selectC - 1 }
  else .error unmatchedDoneResult

/-- The `esac` handling of `_check_control_flow_keywords`, analogous to
`fiStep`. -/
def esacStep (cnt : CFCounters) : Except ValidationResult CFCounters :=
  if cnt.caseC - 1 < 0 then .error unmatchedEsacResult
  else .ok { cnt with caseC := cnt.caseC - 1 }

/-- One iteration of the word loop of `_check_control_flow_keywords`:
update the counters according to the word `w`, or fail fast on an
unmatched closing keyword. -/
def controlFlowStep (w : String) (cnt : CFCounters) : Except ValidationResult CFCounters :=
  if w == "if" then .ok { cnt with ifC := cnt.ifC + 1 }
  else if w == "fi" then fiStep cnt
  else if w == "for" then .ok { cnt with forC := cnt.forC + 1 }
  else if w == "while" then .ok { cnt with whileC := cnt.whileC + 1 }
  else if w == "until" then .ok { cnt with untilC := cnt.untilC + 1 }
  else if w == "select" then .ok { cnt with selectC := cnt.selectC + 1 }
  else if w == "done" then doneStep cnt
  else if w == "case" then .ok { cnt with caseC := cnt.caseC + 1 }
  else if w == "esac" then esacStep cnt
  else .ok cnt

/-- The word loop of `_check_control_flow_keywords`: either fails fast on
an unmatched closing keyword or returns the final counters. -/
def controlFlowGo : List String → CFCounters → Except ValidationResult CFCounters
  | [], cnt => .ok cnt
  | w :: rest, cnt =>
    match controlFlowStep w cnt with
    | .error r => .error r
    | .ok cnt' => controlFlowGo rest cnt'

/-- The end-of-scan reporting of `_check_control_flow_keywords`: any
counter still positive yields the corresponding "unclosed" failure, in
the source's fixed order. -/
def controlFlowFinish (cnt : CFCounters) : ValidationResult :=
  if cnt.ifC > 0 then
      { is_valid := false
        error_message := some ("Unclosed 'if' statement - missing 'fi' (" ++
          toString cnt.ifC ++ " unclosed)")
        error_code := some .UNMATCHED_IF_THEN_FI
        suggestion := some "Add 'fi' to close the 'if' statement: if condition; then commands; fi" }
    else if cnt.forC > 0 then
      { is_valid := false
        error_message := some ("Unclosed 'for' loop - missing 'done' (" ++
          toString cnt.forC ++ " unclosed)")
        error_code := some .UNMATCHED_FOR_DO_DONE
        suggestion := some "Add 'done' to close the 'for' loop: for var in list; do commands; done" }
    else if cnt.whileC > 0 then
      { is_valid := false
        error_message := some ("Unclosed 'while' loop - missing 'done' (" ++
          toString cnt.whileC ++ " unclosed)")
        error_code := some .UNMATCHED_WHILE_DO_DONE
        suggestion := some "Add 'done' to close the 'while' loop: while condition; do commands; done" }
    else if cnt.untilC > 0 then
      { is_valid := false
        error_message := some ("Unclosed 'until' loop - missing 'done' (" ++
          toString cnt.untilC ++ " unclosed)")
        error_code := some .UNMATCHED_WHILE_DO_DONE
        suggestion := some "Add 'done' to close the 'until' loop: until condition; do commands; done" }
    else if cnt.selectC > 0 then
      { is_valid := false
        error_message := some ("Unclosed 'select' statement - missing 'done' (" ++
          toString cnt.selectC ++ " unclosed)")
        error_code := some .UNMATCHED_FOR_DO_DONE
        suggestion := some "Add 'done' to close the 'select' statement: select var in list; do commands; done" }
    else if cnt.caseC > 0 then
      { is_valid := false
        error_message := some ("Unclosed 'case' statement - missing 'esac' (" ++
          toString cnt.caseC ++ " unclosed)")
        error_code := some .UNMATCHED_CASE_ESAC
        suggestion := some "Add 'esac' to close the 'case' statement: case $var in pattern) commands;; esac" }
    else okResult

/-- `CommandValidator._check_control_flow_keywords`. -/
def checkControlFlowKeywords (command : List Char) : ValidationResult :=
  match controlFlowGo (extractUnquotedWords command) {} with
  | .error r => r
  | .ok cnt => controlFlowFinish cnt

/-- The result returned for a `None` command. -/
def noneCommandResult : ValidationResult :=
  { is_valid := false
    error_message := some "Command cannot be None"
    error_code := some .EMPTY_COMMAND
    suggestion := some "Provide a valid shell command string" }

/-- The result returned for an empty or whitespace-only command. -/
def emptyCommandResult : ValidationResult :=
  { is_valid := false
    error_message := some "Command is empty or contains only whitespace"
    error_code := some .EMPTY_COMMAND
    suggestion := some "Provide a non-empty shell command" }

/-- The `for check in checks` loop of variant A's `validate`: return the
first failing check's result, `ValidationResult(is_valid=True)` if all
pass. -/
def runChecks : List (List Char → ValidationResult) → List Char → ValidationResult
  | [], _ => okResult
  | f :: fs, c =>
    let r := f c
    if ¬ r.is_valid then r else runChecks fs c

/-- The ordered check list of variant A's `validate`. -/
def checksList : List (List Char → ValidationResult) :=
  [checkQuotesDetailed, checkTrailingOperators, checkLeadingOperators,
   checkBalancedDelimitersDetailed, checkPipeChainIntegrity,
   checkLogicalOperatorChains, checkRedirectionsDetailed,
   checkCommandStructureDetailed, checkControlFlowKeywords]

/-- `CommandValidator.validate` (variant A); `validate_command` is a thin
wrapper around it on the singleton validator. -/
def validate (command : Option (List Char)) : ValidationResult :=
  match command with
  | none => noneCommandResult
  | some c =>
    if c.isEmpty || pyStrIsSpace c then emptyCommandResult
    else runChecks checksList c

/-!
Variant B (`src/B/src/zev/command_validator.py`).  Its
`_check_quotes_detailed`, `_check_trailing_operators`,
`_check_leading_operators`, `_check_balanced_delimiters_detailed`,
`_check_command_structure_detailed`, `_check_control_flow_keywords`,
`_extract_unquoted_words` and `_get_context_snippet` are character-for-
character the same code as variant A's (A only pre-compiles the identical
regex patterns), so the definitions above embed both variants' versions of
those methods.  The remaining methods differ textually and are embedded
separately below.
-/

/-- The `while` loop of variant B's `_split_by_operator`, which tests the
operator with `command[i:].startswith(operator)` instead of comparing the
slice `command[i:i + op_len]`. -/
def splitGoB (op : List Char) (excludeDouble : Bool) :
    Nat → List Char → Nat → List Char → Bool → Bool → Int → Bool → List (List Char)
  | 0, _, _, cur, _, _, _, _ => [cur]
  | _ + 1, [], _, cur, _, _, _, _ => [cur]
  | fuel + 1, c :: rest, i, cur, sq, dq, pd, esc =>
    if esc then
      splitGoB op excludeDouble fuel rest (i + 1) (cur ++ [c]) sq dq pd false
    else if c = '\\' ∧ ¬ sq then
      splitGoB op excludeDouble fuel rest (i + 1) (cur ++ [c]) sq dq pd true
    else if c = '\'' ∧ ¬ dq then
      splitGoB op excludeDouble fuel rest (i + 1) (cur ++ [c]) (!sq) dq pd false
    else if c = '"' ∧ ¬ sq then
      splitGoB op excludeDouble fuel rest (i + 1) (cur ++ [c]) sq (!dq) pd false
    else if ¬ sq ∧ ¬ dq then
      let pd' : Int := if c = '(' then pd + 1 else if c = ')' then pd - 1 else pd
      if pd' = 0 ∧ op.isPrefixOf (c :: rest) then
        if excludeDouble ∧ op.length = 1 ∧ rest.take 1 = op then
          splitGoB op excludeDouble fuel rest (i + 1) (cur ++ [c]) sq dq pd' false
        else
          cur :: splitGoB op excludeDouble fuel (rest.drop (op.length - 1))
            (i + op.length) [] sq dq pd' false
      else
        splitGoB op excludeDouble fuel rest (i + 1) (cur ++ [c]) sq dq pd' false
    else
      splitGoB op excludeDouble fuel rest (i + 1) (cur ++ [c]) sq dq pd false

/-- Variant B's `_split_by_operator`. -/
def splitByOperatorB (command : List Char) (op : List Char)
    (excludeDouble : Bool := false) : List (List Char) :=
  splitGoB op excludeDouble (command.length + 1) command 0 [] false false 0 false

/-- The segment loop of variant B's `_check_pipe_chain_integrity`, which
writes the two `continue` cases as separate `if` statements. -/
def pipeSegLoopB (n : Nat) : List (List Char) → Nat → ValidationResult
  | [], _ => okResult
  | seg :: rest, i =>
    if (pyStrip seg).isEmpty then
      if i = 0 then pipeSegLoopB n rest (i + 1)
      else if i = n - 1 then pipeSegLoopB n rest (i + 1)
      else
        { is_valid := false
          error_message := some ("Empty command in pipe chain at segment " ++ toString (i + 1))
          error_code := some .EMPTY_PIPE_SEGMENT
          suggestion := some "Each segment in a pipe chain must contain a command, e.g., 'cmd1 | cmd2 | cmd3'" }
    else pipeSegLoopB n rest (i + 1)

/-- Variant B's `_check_pipe_chain_integrity`. -/
def checkPipeChainIntegrityB (command : List Char) : ValidationResult :=
  let segments := splitByOperatorB command ['|'] true
  pipeSegLoopB segments.length segments 0

/-- Variant B's `_check_logical_operator_chains`. -/
def checkLogicalOperatorChainsB (command : List Char) : ValidationResult :=
  let andSegments := splitByOperatorB command ['&', '&']
  let andResult := logicalSegLoop andSegments.length
    { is_valid := false
      error_message := some "Empty command between '&&' operators"
      error_code := some .EMPTY_AND_SEGMENT
      suggestion := some "Add a command between the '&&' operators, e.g., 'cmd1 && cmd2 && cmd3'" }
    andSegments 0
  if ¬ andResult.is_valid then andResult
  else
    let orSegments := splitByOperatorB command ['|', '|']
    logicalSegLoop orSegments.length
      { is_valid := false
        error_message := some "Empty command between '||' operators"
        error_code := some .EMPTY_OR_SEGMENT
        suggestion := some "Add a command between the '||' operators, e.g., 'cmd1 || cmd2 || cmd3'" }
      orSegments 0

/-- Variant B's `_check_redirections_detailed`: it tests
`if re.search(...)`, re-runs the search, and uses
`match.start() if match else None` for the position, which is exactly the
`Option Nat` returned by `findMatchIdx`. -/
def checkRedirectionsDetailedB (command : List Char) : ValidationResult :=
  if (findMatchIdx (redirGapAt '<') command).isSome then
    inputRedirectGapResult (findMatchIdx (redirGapAt '<') command)
  else if (findMatchIdx (redirGapAt '>') command).isSome then
    outputRedirectGapResult (findMatchIdx (redirGapAt '>') command)
  else okResult

/-- Variant B's `validate`, written as its sequence of named
check-and-return-if-invalid steps rather than variant A's loop over a
list of checks. -/
def validateB (command : Option (List Char)) : ValidationResult :=
  match command with
  | none => noneCommandResult
  | some c =>
    if c.isEmpty || pyStrIsSpace c then emptyCommandResult
    else
      let quote_result := checkQuotesDetailed c
      if ¬ quote_result.is_valid then quote_result
      else
        let trailing_result := checkTrailingOperators c
        if ¬ trailing_result.is_valid then trailing_result
        else
          let leading_result := checkLeadingOperators c
          if ¬ leading_result.is_valid then leading_result
          else
            let delimiter_result := checkBalancedDelimitersDetailed c
            if ¬ delimiter_result.is_valid then delimiter_result
            else
              let pipe_result := checkPipeChainIntegrityB c
              if ¬ pipe_result.is_valid then pipe_result
              else
                let logical_result := checkLogicalOperatorChainsB c
                if ¬ logical_result.is_valid then logical_result
                else
                  let redirect_result := checkRedirectionsDetailedB c
                  if ¬ redirect_result.is_valid then redirect_result
                  else
                    let structure_result := checkCommandStructureDetailed c
                    if ¬ structure_result.is_valid then structure_result
                    else
                      let control_result := checkControlFlowKeywords c
                      if ¬ control_result.is_valid then control_result
                      else okResult

/-!
`validateE`: variant A's `validate` with Python's potentially-raising
primitive operations modelled in the `Except` monad.  The only operations
in the validator that can raise for some receiver are the `str.index`
calls in `_check_leading_operators` and
`_check_command_structure_detailed` (`ValueError` when the character is
absent) — every other indexing or slicing is bounds-guarded, and the
`shlex.split` cross-check is wrapped in `try/except ValueError`.  A thrown
`ValueError` is modelled as `Except.error` with its message.
-/

/-- Python `str.index(ch)`: the first index of `ch`, raising `ValueError`
when `ch` does not occur. -/
def pyIndexE (ch : Char) (s : List Char) : Except String Nat :=
  match pyIndex ch s with
  | some i => .ok i
  | none => .error "substring not found"

/-- `_check_leading_operators` with its `command.index(...)` calls modelled
as potentially raising. -/
def checkLeadingOperatorsE (command : List Char) : Except String ValidationResult :=
  let stripped := lstrip command
  if stripped.isEmpty then .ok okResult
  else if ['|'].isPrefixOf stripped ∧ ¬ (['|', '|'].isPrefixOf stripped) then do
    let p ← pyIndexE '|' command
    .ok { is_valid := false
          error_message := some "Command cannot start with pipe operator '|'"
          error_code := some .LEADING_PIPE
          error_position := some p
          suggestion := some "Pipes connect commands; add a command before '|', e.g., 'cmd1 | cmd2'" }
  else if ['&', '&'].isPrefixOf stripped then do
    let p ← pyIndexE '&' command
    .ok { is_valid := false
          error_message := some "Command cannot start with AND operator '&&'"
          error_code := some .LEADING_AND
          error_position := some p
          suggestion := some "'&&' chains commands; add a command before it, e.g., 'cmd1 && cmd2'" }
  else if ['|', '|'].isPrefixOf stripped then do
    let p ← pyIndexE '|' command
    .ok { is_valid := false
          error_message := some "Command cannot start with OR operator '||'"
          error_code := some .LEADING_OR
          error_position := some p
          suggestion := some "'||' provides fallback; add a command before it, e.g., 'cmd1 || cmd2'" }
  else if [';'].isPrefixOf stripped then do
    let p ← pyIndexE ';' command
    .ok { is_valid := false
          error_message := some "Command cannot start with semicolon ';'"
          error_code := some .LEADING_SEMICOLON
          error_position := some p
          suggestion := some "Remove the leading semicolon or add a command before it" }
  else .ok okResult

/-- `_check_command_structure_detailed` with its `command.index("=")` call
modelled as potentially raising. -/
def checkCommandStructureDetailedE (command : List Char) : Except String ValidationResult :=
  let semiResult := semicolonStructureResult command
  if ¬ semiResult.is_valid then .ok semiResult
  else if (lstrip command).head? = some '=' then do
    let p ← pyIndexE '=' command
    .ok { is_valid := false
          error_message := some "Invalid variable assignment - missing variable name before '='"
          error_code := some .INVALID_VARIABLE_ASSIGNMENT
          error_position := some p
          suggestion := some "Variable assignment requires a name, e.g., 'VAR=value'" }
  else .ok okResult

/-- Variant A's `validate` in the `Except` monad: the same ordered,
fail-fast pipeline, with the two checks containing potentially-raising
operations in their `Except` form and the (total) remaining checks lifted
with `.ok`. -/
def validateE (command : Option (List Char)) : Except String ValidationResult :=
  match command with
  | none => .ok noneCommandResult
  | some c =>
    if c.isEmpty || pyStrIsSpace c then .ok emptyCommandResult
    else do
      let r1 := checkQuotesDetailed c
      if ¬ r1.is_valid then .ok r1 else do
      let r2 := checkTrailingOperators c
      if ¬ r2.is_valid then .ok r2 else do
      let r3 ← checkLeadingOperatorsE c
      if ¬ r3.is_valid then .ok r3 else do
      let r4 := checkBalancedDelimitersDetailed c
      if ¬ r4.is_valid then .ok r4 else do
      let r5 := checkPipeChainIntegrity c
      if ¬ r5.is_valid then .ok r5 else do
      let r6 := checkLogicalOperatorChains c
      if ¬ r6.is_valid then .ok r6 else do
      let r7 := checkRedirectionsDetailed c
      if ¬ r7.is_valid then .ok r7 else do
      let r8 ← checkCommandStructureDetailedE c
      if ¬ r8.is_valid then .ok r8 else do
      let r9 := checkControlFlowKeywords c
      if ¬ r9.is_valid then .ok r9 else .ok okResult

/-- Module-level `validate_command` of variant A: it delegates to
`validate` on the singleton validator. -/
def validate_command (command : Option (List Char)) : ValidationResult :=
  validate command

/-- Module-level `validate_command` of variant B. -/
def validate_commandB (command : Option (List Char)) : ValidationResult :=
  validateB command

/-!
Proof infrastructure: every individual check either returns the
all-defaults valid result or a failure that carries both an error message
and an error code — and that code is never `EMPTY_COMMAND`, which only the
`None`/empty guards of `validate` produce.
-/

/-- A well-formed failure result: invalid, with message and code present
and the code different from `EMPTY_COMMAND`. -/
def GoodFail (r : ValidationResult) : Prop :=
  r.is_valid = false ∧ r.error_message.isSome = true ∧ r.error_code.isSome = true ∧
    r.error_code ≠ some ValidationErrorCode.EMPTY_COMMAND

/-- What every individual check returns: the all-defaults valid result or
a well-formed failure. -/
def CheckOK (r : ValidationResult) : Prop := r = okResult ∨ GoodFail r

/-!
Concrete evaluations: the spec's scenario table and other sample inputs,
evaluated on the embedding.
-/

example : (checkQuotesDetailed ("echo 'hello").toList).error_position = some 5 := by decide

example : checkQuotesDetailed ("ls | grep foo").toList = okResult := by decide

example : extractUnquotedWords ("case $x in a) echo 'b c';; esac").toList =
    ["case", "$x", "in", "a", "echo", "esac"] := by decide

example : checkBalancedDelimitersDetailed ("case $x in a) echo a;; esac").toList = okResult := by
  decide

example : (checkBalancedDelimitersDetailed ("echo )").toList).error_code =
    some .UNMATCHED_PARENTHESIS := by decide

example : (checkBalancedDelimitersDetailed ("echo $(ls").toList).error_code =
    some .UNCLOSED_COMMAND_SUBSTITUTION := by decide

-- Note the quirk of the skip rule: only the first bar of `||` is skipped,
-- the second one still splits.
example : (splitByOperator ("a | b || c").toList ['|'] true).map String.mk =
    ["a ", " b |", " c"] := by decide

example : (splitByOperator ("a && b && c").toList ['&', '&']).map String.mk =
    ["a ", " b ", " c"] := by decide

example : findMatchIdx consecSemisAt ("echo ';;'").toList = some 6 := by decide

example : findMatchIdx (redirGapAt '<') ("cat < <(ls)").toList = some 4 := by decide

example : findMatchIdx (redirGapAt '<') ("cat << EOF").toList = none := by decide

example : validate (some ("ls | grep foo").toList) = okResult := by decide

example : (validate (some ("ls |").toList)).error_code = some .TRAILING_PIPE := by decide

example : validate (some ("if true; then echo hi; fi").toList) = okResult := by decide

example : (validate (some ("for i in 1 2 3; do echo $i; done done").toList)).error_code =
    some .UNMATCHED_FOR_DO_DONE := by decide

example : validate (some ("case $x in a) echo a;; b) echo b;; esac").toList) = okResult := by
  decide

example : (validate (some ("echo ';;'").toList)).error_code =
    some .CONSECUTIVE_SEMICOLONS := by decide

theorem checkQuotesDetailed_checkOK (c : List Char) : CheckOK (checkQuotesDetailed c) := by
  simp only [checkQuotesDetailed]
  repeat' split
  all_goals first
    | exact Or.inl rfl
    | exact Or.inr ⟨rfl, rfl, rfl, fun hx => ValidationErrorCode.noConfusion (Option.some.inj hx)⟩

theorem checkTrailingOperators_checkOK (c : List Char) :
    CheckOK (checkTrailingOperators c) := by
  simp only [checkTrailingOperators]
  repeat' split
  all_goals first
    | exact Or.inl rfl
    | exact Or.inr ⟨rfl, rfl, rfl, fun hx => ValidationErrorCode.noConfusion (Option.some.inj hx)⟩

theorem checkLeadingOperators_checkOK (c : List Char) :
    CheckOK (checkLeadingOperators c) := by
  simp only [checkLeadingOperators]
  repeat' split
  all_goals first
    | exact Or.inl rfl
    | exact Or.inr ⟨rfl, rfl, rfl, fun hx => ValidationErrorCode.noConfusion (Option.some.inj hx)⟩

theorem closeParen_error_goodFail (cmd : List Char) (hc : Bool) (i : Nat)
    (st : DelimState) (r : ValidationResult)
    (h : closeParen cmd hc i st = .error r) : GoodFail r := by
  rw [closeParen] at h
  repeat' split at h
  all_goals
    first
    | exact Except.noConfusion h
    | ((try injection h with h); subst h; exact ⟨rfl, rfl, rfl, fun hx => ValidationErrorCode.noConfusion (Option.some.inj hx)⟩)

theorem closeBrace_error_goodFail (cmd : List Char) (i : Nat)
    (st : DelimState) (r : ValidationResult)
    (h : closeBrace cmd i st = .error r) : GoodFail r := by
  rw [closeBrace] at h
  split at h
  · exact Except.noConfusion h
  · (try injection h with h); subst h
    exact ⟨rfl, rfl, rfl, fun hx => ValidationErrorCode.noConfusion (Option.some.inj hx)⟩

theorem closeBracket_error_goodFail (cmd : List Char) (i : Nat)
    (st : DelimState) (r : ValidationResult)
    (h : closeBracket cmd i st = .error r) : GoodFail r := by
  rw [closeBracket] at h
  split at h
  · exact Except.noConfusion h
  · (try injection h with h); subst h
    exact ⟨rfl, rfl, rfl, fun hx => ValidationErrorCode.noConfusion (Option.some.inj hx)⟩

theorem delimCharStep_error_goodFail (cmd : List Char) (hc : Bool) (c : Char)
    (la : Option Char) (i : Nat) (st : DelimState) (r : ValidationResult)
    (h : delimCharStep cmd hc c la i st = .error r) : GoodFail r := by
  rw [delimCharStep] at h
  repeat' split at h
  all_goals
    first
    | exact Except.noConfusion h
    | (cases hcp : closeParen cmd hc i st
       <;> simp only [hcp, Except.map] at h
       <;> first
         | exact Except.noConfusion h
         | ((try injection h with h); subst h; exact closeParen_error_goodFail cmd hc i st _ hcp))
    | (cases hcp : closeBrace cmd i st
       <;> simp only [hcp, Except.map] at h
       <;> first
         | exact Except.noConfusion h
         | ((try injection h with h); subst h; exact closeBrace_error_goodFail cmd i st _ hcp))
    | (cases hcp : closeBracket cmd i st
       <;> simp only [hcp, Except.map] at h
       <;> first
         | exact Except.noConfusion h
         | ((try injection h with h); subst h; exact closeBracket_error_goodFail cmd i st _ hcp))

theorem delimStep_error_goodFail (cmd : List Char) (hc : Bool) (c : Char)
    (la : Option Char) (i : Nat) (st : DelimState) (r : ValidationResult)
    (h : delimStep cmd hc c la i st = .error r) : GoodFail r := by
  rw [delimStep] at h
  cases hq : delimQuoteStep c st with
  | some st' => rw [hq] at h; simp at h
  | none => rw [hq] at h; exact delimCharStep_error_goodFail cmd hc c la i st r h

theorem delimScan_error_goodFail (cmd : List Char) (hc : Bool) :
    ∀ fuel l i st r, delimScan cmd hc fuel l i st = .error r → GoodFail r := by
  intro fuel
  induction fuel with
  | zero => intro l i st r h; simp [delimScan] at h
  | succ n ih =>
    intro l i st r h
    cases l with
    | nil => simp [delimScan] at h
    | cons c rest =>
      rw [delimScan] at h
      cases hstep : delimStep cmd hc c rest.head? i st with
      | error r' =>
        rw [hstep] at h
        cases h
        exact delimStep_error_goodFail cmd hc c rest.head? i st r hstep
      | ok p =>
        obtain ⟨st', two⟩ := p
        rw [hstep] at h
        cases two
        · exact ih _ _ _ _ h
        · exact ih _ _ _ _ h

theorem runDelimScan_error_goodFail (cmd : List Char) (hc : Bool) (r : ValidationResult)
    (h : runDelimScan cmd hc = .error r) : GoodFail r :=
  delimScan_error_goodFail cmd hc _ _ _ _ r h

theorem delimFinishResult_checkOK (c : List Char) (st : DelimState) :
    CheckOK (delimFinishResult c st) := by
  simp only [delimFinishResult]
  repeat' split
  all_goals first
    | exact Or.inl rfl
    | exact Or.inr ⟨rfl, rfl, rfl, fun hx => ValidationErrorCode.noConfusion (Option.some.inj hx)⟩

theorem checkBalancedDelimiters_checkOK (c : List Char) :
    CheckOK (checkBalancedDelimitersDetailed c) := by
  simp only [checkBalancedDelimitersDetailed]
  cases hrun : runDelimScan c (delimHasCase c) with
  | error r => exact Or.inr (runDelimScan_error_goodFail c _ r hrun)
  | ok st => exact delimFinishResult_checkOK c st

theorem pipeSegLoop_checkOK (n : Nat) :
    ∀ segs i, CheckOK (pipeSegLoop n segs i) := by
  intro segs
  induction segs with
  | nil => intro i; exact Or.inl rfl
  | cons seg rest ih =>
    intro i
    simp only [pipeSegLoop]
    repeat' split
    all_goals first
      | exact ih _
      | exact Or.inr ⟨rfl, rfl, rfl, fun hx => ValidationErrorCode.noConfusion (Option.some.inj hx)⟩

theorem checkPipeChainIntegrity_checkOK (c : List Char) :
    CheckOK (checkPipeChainIntegrity c) :=
  pipeSegLoop_checkOK _ _ _

theorem logicalSegLoop_checkOK (n : Nat) (failure : ValidationResult)
    (hf : GoodFail failure) : ∀ segs i, CheckOK (logicalSegLoop n failure segs i) := by
  intro segs
  induction segs with
  | nil => intro i; exact Or.inl rfl
  | cons seg rest ih =>
    intro i
    simp only [logicalSegLoop]
    split
    · exact Or.inr hf
    · exact ih _

theorem checkLogicalOperatorChains_checkOK (c : List Char) :
    CheckOK (checkLogicalOperatorChains c) := by
  simp only [checkLogicalOperatorChains]
  split
  · refine logicalSegLoop_checkOK _ _ ?_ _ 0
    exact ⟨rfl, rfl, rfl, fun hx => ValidationErrorCode.noConfusion (Option.some.inj hx)⟩
  · refine logicalSegLoop_checkOK _ _ ?_ _ 0
    exact ⟨rfl, rfl, rfl, fun hx => ValidationErrorCode.noConfusion (Option.some.inj hx)⟩

theorem checkRedirectionsDetailed_checkOK (c : List Char) :
    CheckOK (checkRedirectionsDetailed c) := by
  simp only [checkRedirectionsDetailed]
  repeat' split
  all_goals first
    | exact Or.inl rfl
    | exact Or.inr ⟨rfl, rfl, rfl, fun hx => ValidationErrorCode.noConfusion (Option.some.inj hx)⟩

theorem semicolonStructureResult_checkOK (c : List Char) :
    CheckOK (semicolonStructureResult c) := by
  simp only [semicolonStructureResult]
  repeat' split
  all_goals first
    | exact Or.inl rfl
    | exact Or.inr ⟨rfl, rfl, rfl, fun hx => ValidationErrorCode.noConfusion (Option.some.inj hx)⟩

theorem checkCommandStructure_checkOK (c : List Char) :
    CheckOK (checkCommandStructureDetailed c) := by
  simp only [checkCommandStructureDetailed]
  split
  · exact semicolonStructureResult_checkOK c
  · repeat' split
    all_goals first
      | exact Or.inl rfl
      | exact Or.inr ⟨rfl, rfl, rfl, fun hx => ValidationErrorCode.noConfusion (Option.some.inj hx)⟩

theorem fiStep_error_goodFail (cnt : CFCounters) (r : ValidationResult)
    (h : fiStep cnt = .error r) : GoodFail r := by
  rw [fiStep] at h
  split at h
  · (try injection h with h); subst h
    exact ⟨rfl, rfl, rfl, fun hx => ValidationErrorCode.noConfusion (Option.some.inj hx)⟩
  · exact Except.noConfusion h

theorem doneStep_error_goodFail (cnt : CFCounters) (r : ValidationResult)
    (h : doneStep cnt = .error r) : GoodFail r := by
  rw [doneStep] at h
  repeat' split at h
  all_goals
    first
    | exact Except.noConfusion h
    | ((try injection h with h); subst h; exact ⟨rfl, rfl, rfl, fun hx => ValidationErrorCode.noConfusion (Option.some.inj hx)⟩)

theorem esacStep_error_goodFail (cnt : CFCounters) (r : ValidationResult)
    (h : esacStep cnt = .error r) : GoodFail r := by
  rw [esacStep] at h
  split at h
  · (try injection h with h); subst h
    exact ⟨rfl, rfl, rfl, fun hx => ValidationErrorCode.noConfusion (Option.some.inj hx)⟩
  · exact Except.noConfusion h

theorem controlFlowStep_error_goodFail (w : String) (cnt : CFCounters)
    (r : ValidationResult) (h : controlFlowStep w cnt = .error r) : GoodFail r := by
  rw [controlFlowStep] at h
  repeat' split at h
  all_goals
    first
    | exact Except.noConfusion h
    | exact fiStep_error_goodFail cnt r h
    | exact doneStep_error_goodFail cnt r h
    | exact esacStep_error_goodFail cnt r h

theorem controlFlowGo_error_goodFail :
    ∀ ws cnt r, controlFlowGo ws cnt = .error r → GoodFail r := by
  intro ws
  induction ws with
  | nil => intro cnt r h; simp [controlFlowGo] at h
  | cons w rest ih =>
    intro cnt r h
    rw [controlFlowGo] at h
    cases hstep : controlFlowStep w cnt with
    | error r' =>
      rw [hstep] at h
      cases h
      exact controlFlowStep_error_goodFail w cnt r hstep
    | ok cnt' =>
      rw [hstep] at h
      exact ih _ _ h

theorem controlFlowFinish_checkOK (cnt : CFCounters) :
    CheckOK (controlFlowFinish cnt) := by
  simp only [controlFlowFinish]
  repeat' split
  all_goals first
    | exact Or.inl rfl
    | exact Or.inr ⟨rfl, rfl, rfl, fun hx => ValidationErrorCode.noConfusion (Option.some.inj hx)⟩

theorem checkControlFlowKeywords_checkOK (c : List Char) :
    CheckOK (checkControlFlowKeywords c) := by
  simp only [checkControlFlowKeywords]
  cases hcf : controlFlowGo (extractUnquotedWords c) {} with
  | error r => exact Or.inr (controlFlowGo_error_goodFail _ _ r hcf)
  | ok cnt => exact controlFlowFinish_checkOK cnt

theorem runChecks_checkOK :
    ∀ (fs : List (List Char → ValidationResult)) (c : List Char),
      (∀ f ∈ fs, CheckOK (f c)) → CheckOK (runChecks fs c) := by
  intro fs
  induction fs with
  | nil => intro c _; exact Or.inl rfl
  | cons f fs ih =>
    intro c h
    simp only [runChecks]
    split
    · next hv =>
      rcases h f (List.mem_cons_self f fs) with h' | h'
      · rw [h'] at hv; simp [okResult] at hv
      · exact Or.inr h'
    · exact ih c fun g hg => h g (List.mem_cons_of_mem f hg)

theorem runChecks_eq_find (fs : List (List Char → ValidationResult)) (c : List Char) :
    runChecks fs c =
      ((fs.map (fun f => f c)).find? (fun r => !r.is_valid)).getD okResult := by
  induction fs with
  | nil => rfl
  | cons f fs ih =>
    simp only [runChecks, List.map_cons, List.find?_cons]
    by_cases hv : (f c).is_valid
    · simp [hv, ih]
    · simp [hv]

theorem validate_some_eq (c : List Char) (h : (c.isEmpty || pyStrIsSpace c) = false) :
    validate (some c) = runChecks checksList c := by
  simp [validate, h]

theorem checksList_checkOK (c : List Char) : ∀ f ∈ checksList, CheckOK (f c) := by
  intro f hf
  simp only [checksList, List.mem_cons, List.not_mem_nil, or_false] at hf
  rcases hf with rfl | rfl | rfl | rfl | rfl | rfl | rfl | rfl | rfl
  · exact checkQuotesDetailed_checkOK c
  · exact checkTrailingOperators_checkOK c
  · exact checkLeadingOperators_checkOK c
  · exact checkBalancedDelimiters_checkOK c
  · exact checkPipeChainIntegrity_checkOK c
  · exact checkLogicalOperatorChains_checkOK c
  · exact checkRedirectionsDetailed_checkOK c
  · exact checkCommandStructure_checkOK c
  · exact checkControlFlowKeywords_checkOK c

theorem validate_checkOK (c : List Char) (h : (c.isEmpty || pyStrIsSpace c) = false) :
    CheckOK (validate (some c)) := by
  rw [validate_some_eq c h]
  exact runChecks_checkOK checksList c (checksList_checkOK c)

/-!
The claim theorems.
-/

/-- C1: for every command that is not `None`, not empty, and not
whitespace-only, `validate` runs the checks in the fixed order quotes,
trailing operators, leading operators, delimiters, pipe-chain integrity,
logical-operator-chain integrity, redirection shape, structural
anomalies, control-flow balance, and returns the result of the first
check that fails (later checks are not consulted); if every check passes,
it returns the valid result. -/
theorem validate_ordered_pipeline_first_failure (c : List Char)
    (h : (c.isEmpty || pyStrIsSpace c) = false) :
    validate (some c) =
      (([checkQuotesDetailed, checkTrailingOperators, checkLeadingOperators,
         checkBalancedDelimitersDetailed, checkPipeChainIntegrity,
         checkLogicalOperatorChains, checkRedirectionsDetailed,
         checkCommandStructureDetailed, checkControlFlowKeywords].map
           (fun f => f c)).find? (fun r => !r.is_valid)).getD okResult := by
  rw [validate_some_eq c h]
  exact runChecks_eq_find checksList c

theorem validate_ordered_pipeline_first_failure_witness :
    validate (some ("ls").toList) =
      (([checkQuotesDetailed, checkTrailingOperators, checkLeadingOperators,
         checkBalancedDelimitersDetailed, checkPipeChainIntegrity,
         checkLogicalOperatorChains, checkRedirectionsDetailed,
         checkCommandStructureDetailed, checkControlFlowKeywords].map
           (fun f => f ("ls").toList)).find? (fun r => !r.is_valid)).getD okResult :=
  validate_ordered_pipeline_first_failure ("ls").toList (by decide)

/-- C2: `validate` returns `is_valid = false` with error code
`EMPTY_COMMAND` if and only if the command is `None`, the empty string,
or consists only of whitespace. -/
theorem validate_empty_command_iff (cmd : Option (List Char)) :
    ((validate cmd).is_valid = false ∧
        (validate cmd).error_code = some ValidationErrorCode.EMPTY_COMMAND) ↔
      (cmd = none ∨ ∃ c, cmd = some c ∧ (c.isEmpty || pyStrIsSpace c) = true) := by
  cases cmd with
  | none => simp [validate, noneCommandResult]
  | some c =>
    by_cases hc : (c.isEmpty || pyStrIsSpace c) = true
    · rw [show validate (some c) = emptyCommandResult by simp [validate, hc]]
      constructor
      · intro _
        exact Or.inr ⟨c, rfl, hc⟩
      · intro _
        exact ⟨rfl, rfl⟩
    · have hfalse : (c.isEmpty || pyStrIsSpace c) = false := by
        cases hb : (c.isEmpty || pyStrIsSpace c)
        · rfl
        · exact absurd hb hc
      constructor
      · rintro ⟨hv, hcode⟩
        rcases validate_checkOK c hfalse with h' | h'
        · rw [h'] at hv; simp [okResult] at hv
        · exact absurd hcode h'.2.2.2
      · rintro (hnone | ⟨c', hc', hcond⟩)
        · exact absurd hnone (by simp)
        · obtain rfl : c = c' := by injection hc'
          rw [hcond] at hfalse
          exact absurd hfalse (by simp)

theorem validate_empty_command_iff_witness :
    (validate (some (" ").toList)).is_valid = false ∧
      (validate (some (" ").toList)).error_code =
        some ValidationErrorCode.EMPTY_COMMAND :=
  (validate_empty_command_iff (some (" ").toList)).mpr (Or.inr ⟨_, rfl, by decide⟩)

/-- C6: every result of `validate` satisfies the output invariant: a valid
result carries no error code, message, position or suggestion, and an
invalid result carries both an error code and an error message. -/
theorem validate_result_invariant (cmd : Option (List Char)) :
    ((validate cmd).is_valid = true →
      (validate cmd).error_code = none ∧ (validate cmd).error_message = none ∧
        (validate cmd).error_position = none ∧ (validate cmd).suggestion = none) ∧
    ((validate cmd).is_valid = false →
      (validate cmd).error_code.isSome = true ∧
        (validate cmd).error_message.isSome = true) := by
  cases cmd with
  | none => simp [validate, noneCommandResult]
  | some c =>
    by_cases hc : (c.isEmpty || pyStrIsSpace c) = true
    · simp [validate, hc, emptyCommandResult]
    · have hfalse : (c.isEmpty || pyStrIsSpace c) = false := by
        cases hb : (c.isEmpty || pyStrIsSpace c)
        · rfl
        · exact absurd hb hc
      rcases validate_checkOK c hfalse with h' | h'
      · rw [h']
        simp [okResult]
      · obtain ⟨hv, hmsg, hcode, _⟩ := h'
        constructor
        · intro ht; rw [ht] at hv; cases hv
        · intro _; exact ⟨hcode, hmsg⟩

theorem validate_result_invariant_witness :
    (validate (some ("ls |").toList)).error_code.isSome = true ∧
      (validate (some ("ls |").toList)).error_message.isSome = true :=
  (validate_result_invariant (some ("ls |").toList)).2 (by decide)

theorem head?_eq_of_isPrefixOf_cons (x : Char) (xs l : List Char)
    (h : (x :: xs).isPrefixOf l = true) : l.head? = some x := by
  cases l with
  | nil => simp [List.isPrefixOf] at h
  | cons a t =>
    simp only [List.isPrefixOf, Bool.and_eq_true, beq_iff_eq] at h
    simp [h.1]

theorem mem_of_lstrip_head? (x : Char) :
    ∀ c : List Char, (lstrip c).head? = some x → x ∈ c := by
  intro c
  induction c with
  | nil => intro h; simp [lstrip] at h
  | cons a t ih =>
    intro h
    rw [lstrip, List.dropWhile] at h
    by_cases ha : pyIsSpace a
    · simp only [ha] at h
      exact List.mem_cons_of_mem a (ih h)
    · simp only [Bool.not_eq_true] at ha
      simp only [ha, List.head?_cons, Option.some.injEq] at h
      exact h ▸ List.mem_cons_self a t

theorem pyIndex_isSome_of_mem (x : Char) :
    ∀ s : List Char, x ∈ s → (pyIndex x s).isSome = true := by
  intro s
  induction s with
  | nil => intro h; cases h
  | cons a t ih =>
    intro h
    rw [pyIndex]
    by_cases ha : a = x
    · simp [ha]
    · have hx : x ∈ t := by
        rcases List.mem_cons.mp h with rfl | hm
        · exact absurd rfl ha
        · exact hm
      simp only [if_neg ha]
      simpa using ih hx

theorem pyIndexE_eq_ok_of_mem (x : Char) (s : List Char) (h : x ∈ s) :
    ∃ i, pyIndexE x s = .ok i ∧ pyIndex x s = some i := by
  obtain ⟨i, hi⟩ := Option.isSome_iff_exists.mp (pyIndex_isSome_of_mem x s h)
  exact ⟨i, by simp [pyIndexE, hi], hi⟩

theorem checkLeadingOperatorsE_eq (c : List Char) :
    checkLeadingOperatorsE c = .ok (checkLeadingOperators c) := by
  rw [checkLeadingOperatorsE, checkLeadingOperators]
  split
  · rfl
  · split
    · next hcond =>
      have hm : '|' ∈ c :=
        mem_of_lstrip_head? '|' c (head?_eq_of_isPrefixOf_cons _ _ _ hcond.1)
      obtain ⟨i, hE, hP⟩ := pyIndexE_eq_ok_of_mem '|' c hm
      rw [hE, hP]
      exact rfl
    · split
      · next hcond =>
        have hm : '&' ∈ c :=
          mem_of_lstrip_head? '&' c (head?_eq_of_isPrefixOf_cons _ _ _ hcond)
        obtain ⟨i, hE, hP⟩ := pyIndexE_eq_ok_of_mem '&' c hm
        rw [hE, hP]
        exact rfl
      · split
        · next hcond =>
          have hm : '|' ∈ c :=
            mem_of_lstrip_head? '|' c (head?_eq_of_isPrefixOf_cons _ _ _ hcond)
          obtain ⟨i, hE, hP⟩ := pyIndexE_eq_ok_of_mem '|' c hm
          rw [hE, hP]
          exact rfl
        · split
          · next hcond =>
            have hm : ';' ∈ c :=
              mem_of_lstrip_head? ';' c (head?_eq_of_isPrefixOf_cons _ _ _ hcond)
            obtain ⟨i, hE, hP⟩ := pyIndexE_eq_ok_of_mem ';' c hm
            rw [hE, hP]
            exact rfl
          · rfl

theorem checkCommandStructureDetailedE_eq (c : List Char) :
    checkCommandStructureDetailedE c = .ok (checkCommandStructureDetailed c) := by
  rw [checkCommandStructureDetailedE, checkCommandStructureDetailed]
  split
  · rfl
  · split
    · next hcond =>
      have hm : '=' ∈ c := mem_of_lstrip_head? '=' c hcond
      obtain ⟨i, hE, hP⟩ := pyIndexE_eq_ok_of_mem '=' c hm
      rw [hE, hP]
      exact rfl
    · rfl

theorem except_ok_bind {α β ε : Type} (a : α) (f : α → Except ε β) :
    (Except.ok a : Except ε α) >>= f = f a := rfl

/-- C3: `validate` is total — with Python's potentially-raising primitive
operations modelled in the `Except` monad (`validateE`), every input
(including `None`, the empty string and strings of arbitrary characters)
produces `Except.ok` of exactly the `ValidationResult` that the pure
embedding returns; no input makes the validator throw. -/
theorem validateE_total (cmd : Option (List Char)) :
    validateE cmd = .ok (validate cmd) := by
  cases cmd with
  | none => rfl
  | some c =>
    by_cases hc : (c.isEmpty || pyStrIsSpace c) = true
    · simp [validateE, validate, hc]
    · have hfalse : (c.isEmpty || pyStrIsSpace c) = false := by
        cases hb : (c.isEmpty || pyStrIsSpace c)
        · rfl
        · exact absurd hb hc
      rw [validateE, validate]
      simp only [hfalse, Bool.false_eq_true, if_false, checksList, runChecks]
      rw [checkLeadingOperatorsE_eq, checkCommandStructureDetailedE_eq]
      simp only [except_ok_bind]
      by_cases h1 : (checkQuotesDetailed c).is_valid  <;> simp only [h1]
      case neg => simp
      by_cases h2 : (checkTrailingOperators c).is_valid <;> simp only [h2]
      case neg => simp
      by_cases h3 : (checkLeadingOperators c).is_valid <;> simp only [h3]
      case neg => simp
      by_cases h4 : (checkBalancedDelimitersDetailed c).is_valid <;> simp only [h4]
      case neg => simp
      by_cases h5 : (checkPipeChainIntegrity c).is_valid <;> simp only [h5]
      case neg => simp
      by_cases h6 : (checkLogicalOperatorChains c).is_valid <;> simp only [h6]
      case neg => simp
      by_cases h7 : (checkRedirectionsDetailed c).is_valid <;> simp only [h7]
      case neg => simp
      by_cases h8 : (checkCommandStructureDetailed c).is_valid <;> simp only [h8]
      case neg => simp
      by_cases h9 : (checkControlFlowKeywords c).is_valid <;> simp only [h9]
      case neg => simp
      simp

theorem closeParen_hasCase_ok (cmd : List Char) (i : Nat) (st : DelimState)
    (r : ValidationResult) : closeParen cmd true i st ≠ .error r := by
  intro h
  rw [closeParen] at h
  repeat' split at h
  all_goals
    first
    | exact Except.noConfusion h
    | exact absurd rfl ‹¬true = true›

theorem closeBrace_error_eq (cmd : List Char) (i : Nat) (st : DelimState)
    (r : ValidationResult) (h : closeBrace cmd i st = .error r) :
    r = unmatchedBraceResult cmd i := by
  rw [closeBrace] at h
  split at h
  · exact Except.noConfusion h
  · injection h with h
    exact h.symm

theorem closeBracket_error_eq (cmd : List Char) (i : Nat) (st : DelimState)
    (r : ValidationResult) (h : closeBracket cmd i st = .error r) :
    r = unmatchedBracketResult cmd i := by
  rw [closeBracket] at h
  split at h
  · exact Except.noConfusion h
  · injection h with h
    exact h.symm

theorem delimCharStep_error_cases (cmd : List Char) (hc : Bool) (c : Char)
    (la : Option Char) (i : Nat) (st : DelimState) (r : ValidationResult)
    (h : delimCharStep cmd hc c la i st = .error r) :
    closeParen cmd hc i st = .error r ∨ closeBrace cmd i st = .error r ∨
      closeBracket cmd i st = .error r := by
  rw [delimCharStep] at h
  repeat' split at h
  all_goals
    first
    | exact Except.noConfusion h
    | (cases hcp : closeParen cmd hc i st
       <;> simp only [hcp, Except.map] at h
       <;> first
         | exact Except.noConfusion h
         | ((try injection h with h); subst h; exact Or.inl rfl))
    | (cases hcp : closeBrace cmd i st
       <;> simp only [hcp, Except.map] at h
       <;> first
         | exact Except.noConfusion h
         | ((try injection h with h); subst h; exact Or.inr (Or.inl rfl)))
    | (cases hcp : closeBracket cmd i st
       <;> simp only [hcp, Except.map] at h
       <;> first
         | exact Except.noConfusion h
         | ((try injection h with h); subst h; exact Or.inr (Or.inr rfl)))

theorem delimStep_error_cases (cmd : List Char) (hc : Bool) (c : Char)
    (la : Option Char) (i : Nat) (st : DelimState) (r : ValidationResult)
    (h : delimStep cmd hc c la i st = .error r) :
    closeParen cmd hc i st = .error r ∨ closeBrace cmd i st = .error r ∨
      closeBracket cmd i st = .error r := by
  rw [delimStep] at h
  cases hq : delimQuoteStep c st with
  | some st' => rw [hq] at h; exact Except.noConfusion h
  | none => rw [hq] at h; exact delimCharStep_error_cases cmd hc c la i st r h

theorem delimScan_error_cases (cmd : List Char) (hc : Bool) :
    ∀ fuel l i st r, delimScan cmd hc fuel l i st = .error r →
      ∃ i' st', closeParen cmd hc i' st' = .error r ∨ closeBrace cmd i' st' = .error r ∨
        closeBracket cmd i' st' = .error r := by
  intro fuel
  induction fuel with
  | zero => intro l i st r h; simp [delimScan] at h
  | succ n ih =>
    intro l i st r h
    cases l with
    | nil => simp [delimScan] at h
    | cons c rest =>
      rw [delimScan] at h
      cases hstep : delimStep cmd hc c rest.head? i st with
      | error r' =>
        rw [hstep] at h
        cases h
        exact ⟨i, st, delimStep_error_cases cmd hc c rest.head? i st r hstep⟩
      | ok p =>
        obtain ⟨st', two⟩ := p
        rw [hstep] at h
        cases two
        · exact ih _ _ _ _ h
        · exact ih _ _ _ _ h

/-- C4 (counterexample to the claim as stated): in the input
`"echo ) case x in"` the unquoted word `case` *is* followed later by the
unquoted word `in`, but the unmatched `)` (offset 5) occurs *before* the
`in` token; by the claim only `)` characters occurring after `in` receive
the exemption, so this input should be flagged `UNMATCHED_PARENTHESIS`.
The delimiter check nevertheless accepts it, because the source tests
nothing but membership of the two words — neither their order nor the
position of the `)` relative to them. -/
theorem case_exemption_counterexample :
    checkBalancedDelimitersDetailed ("echo ) case x in").toList = okResult := by decide

/-- C4 (amended): the case-statement exemption applies whenever the
unquoted words of the input contain both `case` and `in` — in any order
and at any positions; every unquoted `)` not consumed by an open `(` or
`$(`, wherever it occurs, is then silently accepted, and the delimiter
check never returns `UNMATCHED_PARENTHESIS`. -/
theorem case_exemption_membership_only (c : List Char)
    (h : delimHasCase c = true) :
    (checkBalancedDelimitersDetailed c).error_code ≠
      some ValidationErrorCode.UNMATCHED_PARENTHESIS := by
  rw [checkBalancedDelimitersDetailed, h]
  cases hrun : runDelimScan c true with
  | error r =>
    show r.error_code ≠ some ValidationErrorCode.UNMATCHED_PARENTHESIS
    obtain ⟨i', st', hcase⟩ := delimScan_error_cases c true _ _ _ _ r hrun
    rcases hcase with hp | hb | hk
    · exact absurd hp (closeParen_hasCase_ok c i' st' r)
    · rw [closeBrace_error_eq c i' st' r hb]
      exact fun hx => ValidationErrorCode.noConfusion (Option.some.inj hx)
    · rw [closeBracket_error_eq c i' st' r hk]
      exact fun hx => ValidationErrorCode.noConfusion (Option.some.inj hx)
  | ok st =>
    show (delimFinishResult c st).error_code ≠ some ValidationErrorCode.UNMATCHED_PARENTHESIS
    rw [delimFinishResult]
    repeat' split
    all_goals
      first
      | exact fun hx => ValidationErrorCode.noConfusion (Option.some.inj hx)
      | exact fun hx => Option.noConfusion hx

theorem case_exemption_membership_only_witness :
    (checkBalancedDelimitersDetailed ("case x in )").toList).error_code ≠
      some ValidationErrorCode.UNMATCHED_PARENTHESIS :=
  case_exemption_membership_only ("case x in )").toList (by decide)

/-- C5 (counterexample to the claim as stated): in `validate("echo ';;'")`
the consecutive semicolons lie entirely inside single quotes, yet the
command is flagged `CONSECUTIVE_SEMICOLONS`, because the semicolon regex
is applied to the raw command string. -/
theorem quoted_semicolons_flagged_counterexample :
    (validate (some ("echo ';;'").toList)).is_valid = false ∧
      (validate (some ("echo ';;'").toList)).error_code =
        some ValidationErrorCode.CONSECUTIVE_SEMICOLONS := by decide

/-- C5 (amended): the structural-anomaly and redirection-shape regexes
scan the raw command string, quoted regions included: whenever the
`;\s*;` pattern matches anywhere in the command (inside quotes or not)
and no unquoted `case` word is present, the structure check returns
`CONSECUTIVE_SEMICOLONS` at the match position; and whenever the
`<\s+<(?!<)` pattern matches anywhere, the redirection check returns
`REDIRECT_WITHOUT_TARGET` at the match position.  In particular
`validate("echo ';;'")` is flagged. -/
theorem raw_string_semicolon_and_redirect_matching :
    (∀ (c : List Char) (p : Nat),
        (extractUnquotedWords c).contains "case" = false →
        findMatchIdx consecSemisAt c = some p →
        checkCommandStructureDetailed c = consecutiveSemicolonsResult p) ∧
    (∀ (c : List Char) (p : Nat),
        findMatchIdx (redirGapAt '<') c = some p →
        checkRedirectionsDetailed c = inputRedirectGapResult (some p)) := by
  constructor
  · intro c p hcase hfind
    have hcontra : ¬ (extractUnquotedWords c).contains "case" = true := by
      rw [hcase]
      exact Bool.false_ne_true
    have hsem : semicolonStructureResult c = consecutiveSemicolonsResult p := by
      rw [semicolonStructureResult, if_pos hcontra, hfind]
    rw [checkCommandStructureDetailed, hsem]
    rfl
  · intro c p hfind
    simp only [checkRedirectionsDetailed, hfind]

theorem raw_string_semicolon_matching_witness :
    checkCommandStructureDetailed ("echo ';;'").toList =
      consecutiveSemicolonsResult 6 :=
  raw_string_semicolon_and_redirect_matching.1 ("echo ';;'").toList 6
    (by decide) (by decide)

/-- C7: single-defect localization.  For a command (non-empty, not
whitespace-only) whose quote scan ends with an unclosed single quote,
double quote or backtick opened at offset `p`, `validate` returns the
corresponding `UNCLOSED_*` result with `error_position = p`; and for a
command that passes the quote, trailing-operator and leading-operator
checks and whose delimiter scan completes with exactly one unmatched
opener at offset `p`, `validate` returns the corresponding `UNCLOSED_*`
result with `error_position = p` (the position reported is the oldest,
bottom-of-stack entry, which for a single unmatched opener is that
opener); in particular `validate("echo 'hello")` yields
`UNCLOSED_SINGLE_QUOTE` at position 5. -/
theorem single_defect_localization :
    (∀ (c : List Char) (p : Nat), (c.isEmpty || pyStrIsSpace c) = false →
        (scanQuotes c 0 {}).sq = some p →
        validate (some c) = unclosedSingleQuoteResult c p) ∧
    (∀ (c : List Char) (p : Nat), (c.isEmpty || pyStrIsSpace c) = false →
        (scanQuotes c 0 {}).sq = none → (scanQuotes c 0 {}).dq = some p →
        validate (some c) = unclosedDoubleQuoteResult c p) ∧
    (∀ (c : List Char) (p : Nat), (c.isEmpty || pyStrIsSpace c) = false →
        (scanQuotes c 0 {}).sq = none → (scanQuotes c 0 {}).dq = none →
        (scanQuotes c 0 {}).bt = some p →
        validate (some c) = unclosedBacktickResult c p) ∧
    (∀ (c : List Char) (st : DelimState) (p : Nat),
        (c.isEmpty || pyStrIsSpace c) = false →
        (checkQuotesDetailed c).is_valid = true →
        (checkTrailingOperators c).is_valid = true →
        (checkLeadingOperators c).is_valid = true →
        runDelimScan c (delimHasCase c) = .ok st →
        (st.subshell = [p] ∧ st.paren = [] ∧ st.brace = [] ∧ st.bracket = [] →
          validate (some c) = unclosedSubstitutionResult c p) ∧
        (st.subshell = [] ∧ st.paren = [p] ∧ st.brace = [] ∧ st.bracket = [] →
          validate (some c) = unclosedParenthesisResult c p) ∧
        (st.subshell = [] ∧ st.paren = [] ∧ st.brace = [p] ∧ st.bracket = [] →
          validate (some c) = unclosedBraceResult c p) ∧
        (st.subshell = [] ∧ st.paren = [] ∧ st.brace = [] ∧ st.bracket = [p] →
          validate (some c) = unclosedBracketResult c p)) ∧
    validate (some ("echo 'hello").toList) =
      unclosedSingleQuoteResult ("echo 'hello").toList 5 := by
  refine ⟨?_, ?_, ?_, ?_, ?_⟩
  · intro c p hne hsq
    have hq : checkQuotesDetailed c = unclosedSingleQuoteResult c p := by
      simp only [checkQuotesDetailed, hsq]
    rw [validate_some_eq c hne]
    simp only [checksList, runChecks, hq]
    simp [unclosedSingleQuoteResult]
  · intro c p hne hsq hdq
    have hq : checkQuotesDetailed c = unclosedDoubleQuoteResult c p := by
      simp only [checkQuotesDetailed, hsq, hdq]
    rw [validate_some_eq c hne]
    simp only [checksList, runChecks, hq]
    simp [unclosedDoubleQuoteResult]
  · intro c p hne hsq hdq hbt
    have hq : checkQuotesDetailed c = unclosedBacktickResult c p := by
      simp only [checkQuotesDetailed, hsq, hdq, hbt]
    rw [validate_some_eq c hne]
    simp only [checksList, runChecks, hq]
    simp [unclosedBacktickResult]
  · intro c st p hne hq ht hl hrun
    refine ⟨?_, ?_, ?_, ?_⟩ <;> rintro ⟨h1, h2, h3, h4⟩
    all_goals
      rw [validate_some_eq c hne]
      simp only [checksList, runChecks, hq, ht, hl]
      rw [show checkBalancedDelimitersDetailed c = delimFinishResult c st by
        rw [checkBalancedDelimitersDetailed, hrun]]
      simp only [delimFinishResult, h1, h2, h3, h4]
      simp [unclosedSubstitutionResult, unclosedParenthesisResult, unclosedBraceResult,
        unclosedBracketResult]
  · decide

theorem single_defect_localization_witness :
    validate (some ("ab'c").toList) = unclosedSingleQuoteResult ("ab'c").toList 2 :=
  single_defect_localization.1 ("ab'c").toList 2 (by decide) (by decide)

/-- C8: when the delimiter tracker scans an unquoted, unescaped `)` while
both the command-substitution stack (top `s`) and the plain-parenthesis
stack (top `p`) are non-empty, the `)` closes the `$(` entry exactly when
that entry was opened more recently (`s > p`, positions increase
left-to-right); otherwise it closes the plain `(`. -/
theorem subshell_close_priority (cmd : List Char) (hc : Bool) (la : Option Char)
    (i s p : Nat) (ss ps : List Nat) (st : DelimState)
    (hesc : st.escaped = false) (hsq : st.inSQ = false) (hdq : st.inDQ = false)
    (hsub : st.subshell = s :: ss) (hpar : st.paren = p :: ps) :
    delimStep cmd hc ')' la i st =
      .ok ((if s > p then { st with subshell := ss } else { st with paren := ps }),
        false) := by
  have hquote : delimQuoteStep ')' st = none := by
    rw [delimQuoteStep]
    simp [hesc, hsq, hdq]
  have hclose : closeParen cmd hc i st =
      .ok (if s > p then { st with subshell := ss } else { st with paren := ps }) := by
    rw [closeParen]
    by_cases hsp : s > p
    · rw [if_pos, if_pos hsp]
      · simp [hsub, hpar]
      · simp [hsub, hpar, hsp]
    · rw [if_neg, if_pos, if_neg hsp]
      · simp [hpar]
      · simp [hpar]
      · simp [hsub, hpar]
        omega
  rw [delimStep, hquote]
  show (closeParen cmd hc i st).map (fun x => (x, false)) = _
  rw [hclose]
  split <;> rfl

theorem subshell_close_priority_witness :
    delimStep [] false ')' none 9
        { paren := [3], brace := [], bracket := [], subshell := [7],
          inSQ := false, inDQ := false, escaped := false } =
      .ok ((if 7 > 3 then
          { paren := [3], brace := [], bracket := [], subshell := ([] : List Nat),
            inSQ := false, inDQ := false, escaped := false }
        else
          { paren := [], brace := [], bracket := [], subshell := [7],
            inSQ := false, inDQ := false, escaped := false }), false) :=
  subshell_close_priority [] false none 9 7 3 [] [] _ rfl rfl rfl rfl rfl

/-- C9: on the unquoted word `done`, the control-flow balancer decrements
the first currently non-zero (positive) counter among `for`, `while`,
`until`, `select`, checked in that fixed priority order; if all four
counters are zero it fails immediately with `UNMATCHED_FOR_DO_DONE`; in
particular `validate("for i in 1 2 3; do echo $i; done done")` returns
`is_valid = false` with that error code. -/
theorem done_priority_order :
    (∀ cnt : CFCounters, cnt.forC > 0 →
        controlFlowStep "done" cnt = .ok { cnt with forC := cnt.forC - 1 }) ∧
    (∀ cnt : CFCounters, cnt.forC ≤ 0 → cnt.whileC > 0 →
        controlFlowStep "done" cnt = .ok { cnt with whileC := cnt.whileC - 1 }) ∧
    (∀ cnt : CFCounters, cnt.forC ≤ 0 → cnt.whileC ≤ 0 → cnt.untilC > 0 →
        controlFlowStep "done" cnt = .ok { cnt with untilC := cnt.untilC - 1 }) ∧
    (∀ cnt : CFCounters, cnt.forC ≤ 0 → cnt.whileC ≤ 0 → cnt.untilC ≤ 0 →
        cnt.selectC > 0 →
        controlFlowStep "done" cnt = .ok { cnt with selectC := cnt.selectC - 1 }) ∧
    (∀ cnt : CFCounters, cnt.forC = 0 → cnt.whileC = 0 → cnt.untilC = 0 →
        cnt.selectC = 0 →
        controlFlowStep "done" cnt = .error unmatchedDoneResult) ∧
    ((validate (some ("for i in 1 2 3; do echo $i; done done").toList)).is_valid = false ∧
      (validate (some ("for i in 1 2 3; do echo $i; done done").toList)).error_code =
        some ValidationErrorCode.UNMATCHED_FOR_DO_DONE) := by
  refine ⟨?_, ?_, ?_, ?_, ?_, ?_⟩
  · intro cnt h
    rw [controlFlowStep]
    simp [doneStep, h]
  · intro cnt h1 h2
    rw [controlFlowStep]
    have h1' : ¬ cnt.forC > 0 := by omega
    simp [doneStep, h1', h2]
  · intro cnt h1 h2 h3
    rw [controlFlowStep]
    have h1' : ¬ cnt.forC > 0 := by omega
    have h2' : ¬ cnt.whileC > 0 := by omega
    simp [doneStep, h1', h2', h3]
  · intro cnt h1 h2 h3 h4
    rw [controlFlowStep]
    have h1' : ¬ cnt.forC > 0 := by omega
    have h2' : ¬ cnt.whileC > 0 := by omega
    have h3' : ¬ cnt.untilC > 0 := by omega
    simp [doneStep, h1', h2', h3', h4]
  · intro cnt h1 h2 h3 h4
    rw [controlFlowStep]
    have h1' : ¬ cnt.forC > 0 := by omega
    have h2' : ¬ cnt.whileC > 0 := by omega
    have h3' : ¬ cnt.untilC > 0 := by omega
    have h4' : ¬ cnt.selectC > 0 := by omega
    simp [doneStep, h1', h2', h3', h4']
  · constructor <;> decide

theorem done_priority_order_witness :
    controlFlowStep "done"
        { ifC := 0, forC := 1, whileC := 0, untilC := 0,
          caseC := 0, selectC := 0 } =
      .ok { ifC := 0, forC := 0, whileC := 0, untilC := 0,
            caseC := 0, selectC := 0 } := by
  have h := done_priority_order.1
    { ifC := 0, forC := 1, whileC := 0, untilC := 0, caseC := 0, selectC := 0 }
    (by decide)
  simpa using h

theorem isPrefixOf_iff_take (op : List Char) :
    ∀ l : List Char, op.isPrefixOf l = true ↔ l.take op.length = op := by
  induction op with
  | nil => intro l; simp [List.isPrefixOf]
  | cons x xs ih =>
    intro l
    cases l with
    | nil => simp [List.isPrefixOf]
    | cons a t =>
      simp only [List.isPrefixOf, Bool.and_eq_true, beq_iff_eq, List.length_cons,
        List.take_succ_cons, List.cons.injEq, ih t]
      exact and_congr_left fun _ => eq_comm

theorem splitGoB_eq_splitGo (op : List Char) (excl : Bool) :
    ∀ fuel l i cur sq dq pd esc,
      splitGoB op excl fuel l i cur sq dq pd esc =
        splitGo op excl fuel l i cur sq dq pd esc := by
  intro fuel
  induction fuel with
  | zero => intro l i cur sq dq pd esc; rfl
  | succ n ih =>
    intro l i cur sq dq pd esc
    cases l with
    | nil => rfl
    | cons c rest =>
      rw [splitGo, splitGoB]
      simp only [ih, isPrefixOf_iff_take]

theorem splitByOperatorB_eq (command op : List Char) (excl : Bool) :
    splitByOperatorB command op excl = splitByOperator command op excl :=
  splitGoB_eq_splitGo op excl _ _ _ _ _ _ _ _

theorem pipeSegLoopB_eq (n : Nat) :
    ∀ segs i, pipeSegLoopB n segs i = pipeSegLoop n segs i := by
  intro segs
  induction segs with
  | nil => intro i; rfl
  | cons seg rest ih =>
    intro i
    rw [pipeSegLoop, pipeSegLoopB]
    by_cases he : (pyStrip seg).isEmpty
    · by_cases h0 : i = 0
      · simp [he, h0, ih]
      · by_cases hl : i = n - 1 <;> simp [he, h0, hl, ih]
    · simp [he, ih]

theorem checkPipeChainIntegrityB_eq (c : List Char) :
    checkPipeChainIntegrityB c = checkPipeChainIntegrity c := by
  rw [checkPipeChainIntegrityB, checkPipeChainIntegrity, splitByOperatorB_eq]
  exact pipeSegLoopB_eq _ _ 0

theorem checkLogicalOperatorChainsB_eq (c : List Char) :
    checkLogicalOperatorChainsB c = checkLogicalOperatorChains c := by
  rw [checkLogicalOperatorChainsB, checkLogicalOperatorChains,
    splitByOperatorB_eq, splitByOperatorB_eq]

theorem checkRedirectionsDetailedB_eq (c : List Char) :
    checkRedirectionsDetailedB c = checkRedirectionsDetailed c := by
  rw [checkRedirectionsDetailedB, checkRedirectionsDetailed]
  cases h1 : findMatchIdx (redirGapAt '<') c with
  | some p => simp [h1]
  | none =>
    cases h2 : findMatchIdx (redirGapAt '>') c with
    | some p => simp [h1, h2]
    | none => simp [h1, h2]

/-- C10: the two implementations are behaviorally equivalent — for every
input (including `None`), `validate_command` of variant A and
`validate_command` of variant B return the same `ValidationResult`
(hence identical `is_valid`, `error_code`, `error_message`,
`error_position` and `suggestion`). -/
theorem variants_equivalent (cmd : Option (List Char)) :
    validate_command cmd = validate_commandB cmd := by
  rw [validate_command, validate_commandB]
  cases cmd with
  | none => rfl
  | some c =>
    by_cases hc : (c.isEmpty || pyStrIsSpace c) = true
    · simp [validate, validateB, hc]
    · have hf : (c.isEmpty || pyStrIsSpace c) = false := by
        cases hb : (c.isEmpty || pyStrIsSpace c)
        · rfl
        · exact absurd hb hc
      simp only [validate, validateB, hf, Bool.false_eq_true, if_false,
        checksList, runChecks]
      rw [checkPipeChainIntegrityB_eq, checkLogicalOperatorChainsB_eq,
        checkRedirectionsDetailedB_eq]

end Zev
